import Mathlib

/-!
Verification of the Conversation State & Ambiguity Resolution Engine of the
personal-agent repository (src/personal_agent/conversation/): dialogue-act
recognition, ambiguity detection, question generation, conversation state
management and the orchestrating interface, shallowly embedded in Lean.

Strings are modelled as `List Char` where character-level scanning matters;
Python regular expressions are modelled by a small regex AST (`Rx`) together
with a backtracking matcher that reproduces Python's leftmost, preference-order
match semantics for the constructs the source's pattern tables use
(literals, alternation, `\b`, `\s+`, `.`, `.*`, `?`, `$`).
Confidence scores (Python floats with one-decimal literals) are modelled as
rationals. Wall-clock timestamps are modelled as `Nat` ticks.
-/

namespace PersonalAgent

/-- The whitespace characters of Python's `str.strip` and `\s` (ASCII range). -/
def isSpaceChar (c : Char) : Bool :=
  c = ' ' || c = Char.ofNat 9 || c = Char.ofNat 10 ||
  c = Char.ofNat 11 || c = Char.ofNat 12 || c = Char.ofNat 13

/-- Python's `\w` word characters (ASCII range): letters, digits, underscore. -/
def isWordChar (c : Char) : Bool :=
  c.isAlphanum || c = '_'

/-- Python `str.lower`, character by character (ASCII). -/
def pyLower (s : List Char) : List Char :=
  s.map Char.toLower

/-- Python `str.strip`: drop whitespace at both ends. -/
def pyStrip (s : List Char) : List Char :=
  ((s.dropWhile isSpaceChar).reverse.dropWhile isSpaceChar).reverse

/-- Characters of a string literal. -/
def strC (s : String) : List Char :=
  s.data

/-- Does `pat` occur as a contiguous substring of `t` (Python's `in`)? -/
def containsSub (t pat : List Char) : Bool :=
  (List.range (t.length + 1)).any (fun i => pat.isPrefixOf (t.drop i))

/-- Index of the first occurrence of `pat` in `t` (Python `str.find`),
`none` when absent. -/
def findSub (t pat : List Char) : Option Nat :=
  (List.range (t.length + 1)).find? (fun i => pat.isPrefixOf (t.drop i))

/-- Python `str.endswith` on character lists. -/
def endsWith (t pat : List Char) : Bool :=
  pat.isSuffixOf t

/-! ## A small regex engine

The AST covers exactly the constructs used by the source's pattern tables:
character literals, `.`, `\s`, `\b`, `$`, concatenation, alternation `|`,
`*`, `?`.  `matchEnds t r i` returns the possible end positions of a match of
`r` starting at position `i` of text `t`, in Python's backtracking preference
order (alternation prefers the left branch, `*` and `?` are greedy). -/

inductive Rx : Type where
  | eps : Rx
  | lit : Char → Rx
  | anyc : Rx
  | ws : Rx
  | bound : Rx
  | eos : Rx
  | seq : Rx → Rx → Rx
  | alt : Rx → Rx → Rx
  | star : Rx → Rx
  | opt : Rx → Rx
deriving DecidableEq, Repr

/-- Greedy iteration for `star`: prefer more repetitions; only progress-making
steps are iterated (the source's starred bodies all consume input). -/
def starIter (f : Nat → List Nat) : Nat → Nat → List Nat
  | 0, i => [i]
  | fuel + 1, i =>
      (((f i).filter (fun j => i < j)).flatMap (fun j => starIter f fuel j)) ++ [i]

def matchEnds (t : List Char) : Rx → Nat → List Nat
  | .eps, i => [i]
  | .lit c, i =>
      match t[i]? with
      | some d => if d = c then [i + 1] else []
      | none => []
  | .anyc, i =>
      match t[i]? with
      | some d => if d = Char.ofNat 10 then [] else [i + 1]
      | none => []
  | .ws, i =>
      match t[i]? with
      | some d => if isSpaceChar d then [i + 1] else []
      | none => []
  | .bound, i =>
      let before := match i, t[i-1]? with
        | 0, _ => false
        | _ + 1, some d => isWordChar d
        | _ + 1, none => false
      let after := match t[i]? with
        | some d => isWordChar d
        | none => false
      if before ≠ after then [i] else []
  | .eos, i =>
      if i = t.length ∨ (i + 1 = t.length ∧ t[i]? = some (Char.ofNat 10)) then [i] else []
  | .seq a b, i => (matchEnds t a i).flatMap (fun j => matchEnds t b j)
  | .alt a b, i => matchEnds t a i ++ matchEnds t b i
  | .star a, i => starIter (matchEnds t a) (t.length + 1 - i) i
  | .opt a, i => matchEnds t a i ++ [i]

/-- Leftmost match from `start` on: Python scans start positions left to right
and at the first matching position takes the most-preferred end. -/
def firstMatchAux (r : Rx) (t : List Char) : Nat → Nat → Option (Nat × Nat)
  | _, 0 => none
  | i, fuel + 1 =>
      match matchEnds t r i with
      | e :: _ => some (i, e)
      | [] => firstMatchAux r t (i + 1) fuel

def firstMatchFrom (r : Rx) (t : List Char) (start : Nat) : Option (Nat × Nat) :=
  firstMatchAux r t start (t.length + 1 - start)

/-- Python `re.search` as a Boolean (the source only tests truthiness). -/
def searchB (r : Rx) (t : List Char) : Bool :=
  (firstMatchFrom r t 0).isSome

/-- Python `re.fullmatch` as a Boolean: some match starting at 0 ends at the
end of the text. -/
def fullmatchB (r : Rx) (t : List Char) : Bool :=
  (matchEnds t r 0).any (fun e => e = t.length)

/-- Python `re.finditer`: successive non-overlapping leftmost matches. -/
def finditerAux (r : Rx) (t : List Char) : Nat → Nat → List (Nat × Nat)
  | _, 0 => []
  | pos, fuel + 1 =>
      match firstMatchFrom r t pos with
      | none => []
      | some (s, e) => (s, e) :: finditerAux r t (if s < e then e else e + 1) fuel

def finditer (r : Rx) (t : List Char) : List (Nat × Nat) :=
  finditerAux r t 0 (t.length + 2)

/-! Pattern construction helpers mirroring the regex source syntax. -/

/-- A literal string of regex characters. -/
def rstr (s : String) : Rx :=
  s.data.foldr (fun c r => Rx.seq (Rx.lit c) r) Rx.eps

/-- Left-preferring alternation of a list (regex `(a|b|c)`). -/
def raltL : List Rx → Rx
  | [] => Rx.eps
  | [r] => r
  | r :: rs => Rx.alt r (raltL rs)

/-- Concatenation of a list of regex pieces. -/
def rcat (l : List Rx) : Rx :=
  l.foldr Rx.seq Rx.eps

/-- Regex `\s+`. -/
def wsPlus : Rx :=
  Rx.seq Rx.ws (Rx.star Rx.ws)

/-- Regex `.*`. -/
def dotStar : Rx :=
  Rx.star Rx.anyc

/-- Alternation of literal words (regex `(w1|w2|…)`). -/
def grpWords (ws : List String) : Rx :=
  raltL (ws.map rstr)

/-- Regex `\b(w1|w2|…)\b`. -/
def bword (ws : List String) : Rx :=
  rcat [Rx.bound, grpWords ws, Rx.bound]

/-! ## Enumerations (state.py) -/

/-- `ConversationState` of state.py. -/
inductive ConversationState : Type where
  | initial
  | greeting
  | inProgress
  | askingClarification
  | providingInformation
  | seekingConfirmation
  | closing
  | error
deriving DecidableEq, Repr

/-- `DialogueAct` of state.py. -/
inductive DialogueAct : Type where
  | greeting
  | question
  | statement
  | request
  | confirmation
  | clarification
  | acknowledgment
  | closing
  | error
deriving DecidableEq, Repr

/-- `.value` string tag of a `ConversationState`. -/
def stateValue : ConversationState → String
  | .initial => "initial"
  | .greeting => "greeting"
  | .inProgress => "in_progress"
  | .askingClarification => "asking_clarification"
  | .providingInformation => "providing_information"
  | .seekingConfirmation => "seeking_confirmation"
  | .closing => "closing"
  | .error => "error"

/-- `ConversationState(tag)`: inverse enum lookup, `none` on a bad tag. -/
def stateFromValue (s : String) : Option ConversationState :=
  if s = "initial" then some .initial
  else if s = "greeting" then some .greeting
  else if s = "in_progress" then some .inProgress
  else if s = "asking_clarification" then some .askingClarification
  else if s = "providing_information" then some .providingInformation
  else if s = "seeking_confirmation" then some .seekingConfirmation
  else if s = "closing" then some .closing
  else if s = "error" then some .error
  else none

/-- `.value` string tag of a `DialogueAct`. -/
def actValue : DialogueAct → String
  | .greeting => "greeting"
  | .question => "question"
  | .statement => "statement"
  | .request => "request"
  | .confirmation => "confirmation"
  | .clarification => "clarification"
  | .acknowledgment => "acknowledgment"
  | .closing => "closing"
  | .error => "error"

/-- `DialogueAct(tag)`: inverse enum lookup, `none` on a bad tag. -/
def actFromValue (s : String) : Option DialogueAct :=
  if s = "greeting" then some .greeting
  else if s = "question" then some .question
  else if s = "statement" then some .statement
  else if s = "request" then some .request
  else if s = "confirmation" then some .confirmation
  else if s = "clarification" then some .clarification
  else if s = "acknowledgment" then some .acknowledgment
  else if s = "closing" then some .closing
  else if s = "error" then some .error
  else none

/-! ## Dialogue-act recognizer (dialogue_act.py)

The pattern table of `DialogueActRecognizer.__init__`, each regex translated
construct for construct. -/

/-- `\b(hello|hi|hey|good\s+(morning|afternoon|evening))\b` -/
def greetingP1 : Rx :=
  rcat [Rx.bound,
    raltL [rstr "hello", rstr "hi", rstr "hey",
      rcat [rstr "good", wsPlus, grpWords ["morning", "afternoon", "evening"]]],
    Rx.bound]

/-- `\bhowdy\b` -/
def greetingP2 : Rx :=
  rcat [Rx.bound, rstr "howdy", Rx.bound]

/-- `\bwhat\'?s\s+up\b` -/
def greetingP3 : Rx :=
  rcat [Rx.bound, rstr "what", Rx.opt (Rx.lit '\''), rstr "s", wsPlus, rstr "up", Rx.bound]

/-- `\b(bye|goodbye|see\s+you|farewell|quit|exit)\b` -/
def closingP1 : Rx :=
  rcat [Rx.bound,
    raltL [rstr "bye", rstr "goodbye", rcat [rstr "see", wsPlus, rstr "you"],
      rstr "farewell", rstr "quit", rstr "exit"],
    Rx.bound]

/-- `that\'?s` (piece shared by both alternatives of `closingP2`). -/
def thatApS : Rx :=
  rcat [rstr "that", Rx.opt (Rx.lit '\''), rstr "s"]

/-- `\b(that\'?s\s+all|that\'?s\s+it)\b` -/
def closingP2 : Rx :=
  rcat [Rx.bound,
    raltL [rcat [thatApS, wsPlus, rstr "all"], rcat [thatApS, wsPlus, rstr "it"]],
    Rx.bound]

/-- `\b(what|where|when|why|how|who|which|whose|whom)\b.*\?` -/
def questionP1 : Rx :=
  rcat [Rx.bound,
    grpWords ["what", "where", "when", "why", "how", "who", "which", "whose", "whom"],
    Rx.bound, dotStar, Rx.lit '?']

/-- `\b(could|would|can|will|shall|do|does|did|is|are|was|were)\b.*\?` -/
def questionP2 : Rx :=
  rcat [Rx.bound,
    grpWords ["could", "would", "can", "will", "shall", "do", "does", "did",
      "is", "are", "was", "were"],
    Rx.bound, dotStar, Rx.lit '?']

/-- `.*\?$` -/
def questionP3 : Rx :=
  rcat [dotStar, Rx.lit '?', Rx.eos]

/-- `\b(please|could you|would you|can you|help me)\b` -/
def requestP1 : Rx :=
  bword ["please", "could you", "would you", "can you", "help me"]

/-- `\b(i need|i want|i would like)\b` -/
def requestP2 : Rx :=
  bword ["i need", "i want", "i would like"]

/-- `\b(tell me|show me|give me|find me)\b` -/
def requestP3 : Rx :=
  bword ["tell me", "show me", "give me", "find me"]

/-- `\b(yes|yeah|yep|sure|ok|okay|right|correct|affirmative)\b` -/
def confirmationP1 : Rx :=
  bword ["yes", "yeah", "yep", "sure", "ok", "okay", "right", "correct", "affirmative"]

/-- `\b(no|nope|negative)\b` -/
def confirmationP2 : Rx :=
  bword ["no", "nope", "negative"]

/-- `\b(what do you mean|can you explain|what exactly|sorry)\b` -/
def clarificationP1 : Rx :=
  bword ["what do you mean", "can you explain", "what exactly", "sorry"]

/-- `\b(i don\'?t understand|i\'?m confused)\b` -/
def clarificationP2 : Rx :=
  rcat [Rx.bound,
    raltL [rcat [rstr "i don", Rx.opt (Rx.lit '\''), rstr "t understand"],
      rcat [rstr "i", Rx.opt (Rx.lit '\''), rstr "m confused"]],
    Rx.bound]

/-- `\b(i see|i understand|got it|okay|ok|right)\b` -/
def acknowledgmentP1 : Rx :=
  bword ["i see", "i understand", "got it", "okay", "ok", "right"]

/-- `\b(thanks|thank you|appreciate it)\b` -/
def acknowledgmentP2 : Rx :=
  bword ["thanks", "thank you", "appreciate it"]

/-- `DialogueActRecognizer.patterns`, in dict insertion order. -/
def dialoguePatterns : List (DialogueAct × List Rx) :=
  [(.greeting, [greetingP1, greetingP2, greetingP3]),
   (.closing, [closingP1, closingP2]),
   (.question, [questionP1, questionP2, questionP3]),
   (.request, [requestP1, requestP2, requestP3]),
   (.confirmation, [confirmationP1, confirmationP2]),
   (.clarification, [clarificationP1, clarificationP2]),
   (.acknowledgment, [acknowledgmentP1, acknowledgmentP2])]

/-- `DialogueActRecognizer._calculate_pattern_score`: the first pattern found
by `re.search` decides the score — 0.9 when it also fully matches, 0.7
otherwise; 0.0 when no pattern matches. -/
def calculatePatternScore (text : List Char) : List Rx → ℚ
  | [] => 0
  | p :: ps =>
      if searchB p text then
        (if fullmatchB p text then 9/10 else 7/10)
      else calculatePatternScore text ps

/-- `DialogueActRecognizer.recognize_act`. -/
def recognizeAct (text : String) : DialogueAct × ℚ :=
  let textLower := pyStrip (pyLower (strC text))
  if textLower.isEmpty then (.error, 0)
  else
    dialoguePatterns.foldl
      (fun best ap =>
        let score := calculatePatternScore textLower ap.2
        if best.2 < score then (ap.1, score) else best)
      (.statement, 1/10)

/-! ## Ambiguity detector (ambiguity_detector.py) -/

/-- `AmbiguityType` of ambiguity_detector.py. -/
inductive AmbiguityType : Type where
  | entityAmbiguity
  | scopeAmbiguity
  | intentAmbiguity
  | temporalAmbiguity
  | quantifierAmbiguity
  | referenceAmbiguity
  | contextAmbiguity
deriving DecidableEq, Repr

/-- `.value` string tag of an `AmbiguityType`. -/
def ambTypeValue : AmbiguityType → String
  | .entityAmbiguity => "entity_ambiguity"
  | .scopeAmbiguity => "scope_ambiguity"
  | .intentAmbiguity => "intent_ambiguity"
  | .temporalAmbiguity => "temporal_ambiguity"
  | .quantifierAmbiguity => "quantifier_ambiguity"
  | .referenceAmbiguity => "reference_ambiguity"
  | .contextAmbiguity => "context_ambiguity"

/-- `AmbiguityDetection` dataclass. -/
structure AmbiguityDetection : Type where
  type : AmbiguityType
  confidence : ℚ
  description : String
  position : Nat × Nat
  suggestedClarification : String
deriving DecidableEq, Repr

/-- `\b(it|this|that|these|those)\b` -/
def entityA1 : Rx := bword ["it", "this", "that", "these", "those"]

/-- `\b(he|she|they|them|we|us)\b` -/
def entityA2 : Rx := bword ["he", "she", "they", "them", "we", "us"]

/-- `\b(the thing|the stuff|this one|that one)\b` -/
def entityA3 : Rx := bword ["the thing", "the stuff", "this one", "that one"]

/-- `\b(all|everything|everywhere)\b` -/
def scopeA1 : Rx := bword ["all", "everything", "everywhere"]

/-- `\b(some|a few|several)\b.*\b(of (them|it|this))\b` -/
def scopeA2 : Rx :=
  rcat [bword ["some", "a few", "several"], dotStar,
    Rx.bound, rstr "of ", grpWords ["them", "it", "this"], Rx.bound]

/-- `\b(part of|some of|a bit of)\b` -/
def scopeA3 : Rx := bword ["part of", "some of", "a bit of"]

/-- `\b(a few of those things)\b` -/
def scopeA4 : Rx := bword ["a few of those things"]

/-- `\b(help me|can you|could you|would you)\b.*\?$` -/
def intentA1 : Rx :=
  rcat [bword ["help me", "can you", "could you", "would you"], dotStar, Rx.lit '?', Rx.eos]

/-- `\b(i need|i want)\b.*\?$` -/
def intentA2 : Rx :=
  rcat [bword ["i need", "i want"], dotStar, Rx.lit '?', Rx.eos]

/-- `\b(what about|how about)\b` -/
def intentA3 : Rx := bword ["what about", "how about"]

/-- `\b(i need help with this)\b` -/
def intentA4 : Rx := bword ["i need help with this"]

/-- `\b(sometimes|often|usually|occasionally)\b` -/
def temporalA1 : Rx := bword ["sometimes", "often", "usually", "occasionally"]

/-- `\b(later|soon|in a bit|in a moment)\b` -/
def temporalA2 : Rx := bword ["later", "soon", "in a bit", "in a moment"]

/-- `\b(when|whenever|while)\b.*\?` -/
def temporalA3 : Rx :=
  rcat [bword ["when", "whenever", "while"], dotStar, Rx.lit '?']

/-- `\b(recently|lately|before|afterwards)\b` -/
def temporalA4 : Rx := bword ["recently", "lately", "before", "afterwards"]

/-- `\b(a lot of|a bunch of|a lot|many|much)\b` -/
def quantifierA1 : Rx := bword ["a lot of", "a bunch of", "a lot", "many", "much"]

/-- `\b(few|a few|several|some)\b` -/
def quantifierA2 : Rx := bword ["few", "a few", "several", "some"]

/-- `\b(enough|too much|too many)\b` -/
def quantifierA3 : Rx := bword ["enough", "too much", "too many"]

/-- `\b(this|that|these|those)\b.*\?` -/
def referenceA1 : Rx :=
  rcat [bword ["this", "that", "these", "those"], dotStar, Rx.lit '?']

/-- `\b(he|she|it|they|them)\b.*\?` -/
def referenceA2 : Rx :=
  rcat [bword ["he", "she", "it", "they", "them"], dotStar, Rx.lit '?']

/-- `\b(one|ones)\b.*\b(refer to|mean|talking about)\b` -/
def referenceA3 : Rx :=
  rcat [bword ["one", "ones"], dotStar,
    Rx.bound, grpWords ["refer to", "mean", "talking about"], Rx.bound]

/-- `\b(in that case|given that|considering that)\b` -/
def contextA1 : Rx := bword ["in that case", "given that", "considering that"]

/-- `\b(as we discussed|as mentioned|like before)\b` -/
def contextA2 : Rx := bword ["as we discussed", "as mentioned", "like before"]

/-- `\b(based on|according to)\b.*\b(you|your|previous)\b` -/
def contextA3 : Rx :=
  rcat [bword ["based on", "according to"], dotStar,
    Rx.bound, grpWords ["you", "your", "previous"], Rx.bound]

/-- `AmbiguityDetector.patterns`, in dict insertion order. -/
def ambiguityPatterns : List (AmbiguityType × List Rx) :=
  [(.entityAmbiguity, [entityA1, entityA2, entityA3]),
   (.scopeAmbiguity, [scopeA1, scopeA2, scopeA3, scopeA4]),
   (.intentAmbiguity, [intentA1, intentA2, intentA3, intentA4]),
   (.temporalAmbiguity, [temporalA1, temporalA2, temporalA3, temporalA4]),
   (.quantifierAmbiguity, [quantifierA1, quantifierA2, quantifierA3]),
   (.referenceAmbiguity, [referenceA1, referenceA2, referenceA3]),
   (.contextAmbiguity, [contextA1, contextA2, contextA3])]

/-- `ambiguity_indicators["vague_terms"]`. -/
def vagueTerms : List String :=
  ["thing", "stuff", "something", "someone", "somewhere", "somehow"]

/-- `ambiguity_indicators["incomplete_phrases"]`. -/
def incompletePhrases : List String :=
  ["i want", "i need", "help me", "can you", "could you"]

/-- `ambiguity_indicators["comparative_terms"]` (unused by the detection path). -/
def comparativeTerms : List String :=
  ["better", "worse", "more", "less", "faster", "slower"]

/-- `ambiguity_indicators["conditional_terms"]` (unused by the detection path). -/
def conditionalTerms : List String :=
  ["if", "unless", "whether", "in case"]

/-- Base confidence per ambiguity type in `_calculate_confidence`. -/
def baseConfidence : AmbiguityType → ℚ
  | .entityAmbiguity => 7/10
  | .scopeAmbiguity => 6/10
  | .intentAmbiguity => 8/10
  | .temporalAmbiguity => 6/10
  | .quantifierAmbiguity => 5/10
  | .referenceAmbiguity => 7/10
  | .contextAmbiguity => 6/10

/-- `AmbiguityDetector._calculate_confidence`: base per type, +0.1 when the
matched text is a suffix of the lowercased text and the text contains a
question mark, −0.2 when the text is shorter than 10 characters, clamped
to [0, 1]. -/
def calculateConfidence (ty : AmbiguityType) (matched textLower : List Char) : ℚ :=
  let base := baseConfidence ty
  let adjustment : ℚ :=
    (if endsWith textLower matched ∧ textLower.contains '?' then 1/10 else 0) -
    (if textLower.length < 10 then 2/10 else 0)
  max 0 (min 1 (base + adjustment))

/-- `AmbiguityDetector._generate_description_and_clarification`. -/
def descriptionAndClarification (ty : AmbiguityType) (matched : String) : String × String :=
  match ty with
  | .entityAmbiguity =>
      ("Unclear reference to '" ++ matched ++ "'",
       "Could you be more specific about what you're referring to?")
  | .scopeAmbiguity =>
      ("Unclear scope with '" ++ matched ++ "'",
       "Could you clarify what you mean by that?")
  | .intentAmbiguity =>
      ("Unclear intent with '" ++ matched ++ "'",
       "What exactly would you like me to help you with?")
  | .temporalAmbiguity =>
      ("Unclear timing with '" ++ matched ++ "'",
       "When are you referring to?")
  | .quantifierAmbiguity =>
      ("Unclear quantity with '" ++ matched ++ "'",
       "How much or how many are you referring to?")
  | .referenceAmbiguity =>
      ("Unclear reference to '" ++ matched ++ "'",
       "What specifically are you referring to?")
  | .contextAmbiguity =>
      ("Missing context with '" ++ matched ++ "'",
       "Could you provide more context for your request?")

/-- `AmbiguityDetector._create_ambiguity_detection`: the span comes from a
match on the lowercased text, the matched text is sliced from the original
text at the same offsets. -/
def createAmbiguityDetection (ty : AmbiguityType) (span : Nat × Nat)
    (text textLower : List Char) : AmbiguityDetection :=
  let matched := (text.drop span.1).take (span.2 - span.1)
  let confidence := calculateConfidence ty matched textLower
  let dc := descriptionAndClarification ty (String.mk matched)
  { type := ty, confidence := confidence, description := dc.1,
    position := span, suggestedClarification := dc.2 }

/-- `AmbiguityDetector._detect_keyword_ambiguities`. -/
def detectKeywordAmbiguities (textLower : List Char) : List AmbiguityDetection :=
  let vague := vagueTerms.filterMap (fun term =>
    if containsSub textLower (strC term) then
      let start := (findSub textLower (strC term)).getD 0
      some { type := .entityAmbiguity, confidence := 6/10,
             description := "Vague term '" ++ term ++ "' used",
             position := (start, start + (strC term).length),
             suggestedClarification := "Could you be more specific about what you mean?" }
    else none)
  let incomplete := incompletePhrases.filterMap (fun phrase =>
    if endsWith textLower (strC phrase) then
      let start := (findSub textLower (strC phrase)).getD 0
      some { type := .intentAmbiguity, confidence := 8/10,
             description := "Incomplete request ending with '" ++ phrase ++ "'",
             position := (start, start + (strC phrase).length),
             suggestedClarification := "What specifically would you like me to do?" }
    else none)
  vague ++ incomplete

/-- `AmbiguityDetector._detect_dialogue_act_ambiguity`. -/
def detectDialogueActAmbiguity (text : String) : Option AmbiguityDetection :=
  let textLower := pyStrip (pyLower (strC text))
  if endsWith textLower ['?'] then
    if (["what", "how", "which"].any (fun w => containsSub textLower (strC w))) &&
       !(["name", "date", "time", "place", "number", "amount"].any
          (fun w => containsSub textLower (strC w))) then
      some { type := .intentAmbiguity, confidence := 7/10,
             description := "General question without specific details",
             position := (0, (strC text).length),
             suggestedClarification :=
               "Could you be more specific about what information you're looking for?" }
    else none
  else none

/-- Composite de-duplication key of `_remove_duplicates`. -/
def dupKey (d : AmbiguityDetection) : Nat × Nat × String :=
  (d.position.1, d.position.2, ambTypeValue d.type)

/-- `AmbiguityDetector._remove_duplicates`: keep the first detection for each
`(start, end, type)` key, drop later duplicates. -/
def removeDupsAux (seen : List (Nat × Nat × String)) :
    List AmbiguityDetection → List AmbiguityDetection
  | [] => []
  | d :: ds =>
      if seen.contains (dupKey d) then removeDupsAux seen ds
      else d :: removeDupsAux (dupKey d :: seen) ds

def removeDuplicates (l : List AmbiguityDetection) : List AmbiguityDetection :=
  removeDupsAux [] l

/-- Stable insertion (descending by confidence), matching Python's stable
`sort(key=confidence, reverse=True)`. -/
def insertByConfDesc (x : AmbiguityDetection) :
    List AmbiguityDetection → List AmbiguityDetection
  | [] => [x]
  | y :: ys =>
      if y.confidence ≤ x.confidence then x :: y :: ys
      else y :: insertByConfDesc x ys

def sortByConfDesc : List AmbiguityDetection → List AmbiguityDetection
  | [] => []
  | x :: xs => insertByConfDesc x (sortByConfDesc xs)

/-- The `ambiguities` list accumulated by `detect_ambiguities` before
de-duplication: the pattern scan, then the keyword scan, then the
dialogue-act scan. -/
def rawDetections (text : String) : List AmbiguityDetection :=
  let textLower := pyStrip (pyLower (strC text))
  let patternDetections := ambiguityPatterns.flatMap (fun typs =>
    typs.2.flatMap (fun p =>
      (finditer p textLower).map (fun span =>
        createAmbiguityDetection typs.1 span (strC text) textLower)))
  let keywordDetections := detectKeywordAmbiguities textLower
  let dialogueDetections := (detectDialogueActAmbiguity text).toList
  patternDetections ++ keywordDetections ++ dialogueDetections

/-- `AmbiguityDetector.detect_ambiguities`: pattern scan, keyword scan,
dialogue-act scan, de-duplication, sort by confidence descending. -/
def detectAmbiguities (text : String) : List AmbiguityDetection :=
  sortByConfDesc (removeDuplicates (rawDetections text))

/-- `AmbiguityDetector.has_ambiguity`. -/
def hasAmbiguity (text : String) (minConfidence : ℚ := 1/2) : Bool :=
  (detectAmbiguities text).any (fun d => minConfidence ≤ d.confidence)

/-- `AmbiguityDetector.get_highest_confidence_ambiguity` (max by confidence;
the list is already sorted descending, Python's `max` keeps the first of
equal keys). -/
def getHighestConfidenceAmbiguity (text : String) : Option AmbiguityDetection :=
  (detectAmbiguities text).foldl
    (fun best d => match best with
      | none => some d
      | some b => if b.confidence < d.confidence then some d else best)
    none

/-! ## Randomness model

`random.choice` is modelled by an infinite supply of draws: a function
`Nat → Nat` together with the index of the next draw; a choice from a list
of length `n` consumes one draw and selects position `draw % n`. -/

structure Rng : Type where
  f : Nat → Nat
  idx : Nat

/-- `random.choice(l)` on a non-empty list (all the source's template lists
are non-empty; the default is never selected). -/
def rchoice (g : Rng) (l : List String) : String × Rng :=
  (l.getD (g.f g.idx % l.length) "", ⟨g.f, g.idx + 1⟩)

/-! ## Question generator (question_generator.py) -/

/-- `QuestionGenerator.question_templates`. -/
def questionTemplates : AmbiguityType → List String
  | .entityAmbiguity =>
      ["Could you be more specific about what you're referring to?",
       "What exactly are you talking about?",
       "Can you clarify what you mean by that?",
       "Which specific {entity} are you referring to?",
       "I'm not sure what you mean. Could you provide more details?"]
  | .scopeAmbiguity =>
      ["Could you clarify what you mean by that?",
       "What specifically are you referring to?",
       "Can you be more specific about the scope?",
       "Are you referring to all of them or just some?",
       "What exactly do you mean by '{scope}'?"]
  | .intentAmbiguity =>
      ["What exactly would you like me to help you with?",
       "Could you clarify what you're trying to accomplish?",
       "What specifically are you looking for?",
       "Can you tell me more about what you need?",
       "I'd like to help, but I'm not sure what you want. Could you explain?"]
  | .temporalAmbiguity =>
      ["When are you referring to?",
       "Could you be more specific about the timing?",
       "What time period are you asking about?",
       "Are you referring to now, in the past, or in the future?",
       "Can you clarify when you mean?"]
  | .quantifierAmbiguity =>
      ["How much or how many are you referring to?",
       "Could you be more specific about the quantity?",
       "What amount are you asking about?",
       "Can you give me a specific number?",
       "How many exactly?"]
  | .referenceAmbiguity =>
      ["What specifically are you referring to?",
       "Could you clarify what you mean by that?",
       "Which one are you talking about?",
       "I'm not sure what you're referring to. Could you be more specific?",
       "Can you tell me more about what you mean?"]
  | .contextAmbiguity =>
      ["Could you provide more context for your request?",
       "Can you give me more background information?",
       "I'm not sure I understand the context. Could you explain more?",
       "What situation are you referring to?",
       "Could you clarify the circumstances you're asking about?"]

/-- `QuestionGenerator.fallback_templates`. -/
def questionFallbackTemplates : List String :=
  ["Could you clarify what you mean?",
   "I'm not sure I understand. Could you explain more?",
   "Can you be more specific about what you're asking?",
   "Could you provide more details?",
   "I'd like to help, but I need a bit more information. What exactly do you mean?"]

/-- `QuestionGenerator.contextual_templates["default"]`. -/
def contextualTemplates : List String :=
  ["To better assist you, could you clarify: {question}",
   "I want to make sure I understand correctly. {question}",
   "Could you help me understand what you mean by that? {question}",
   "To provide the best response, I need a bit more information: {question}",
   "Could you elaborate on that point? {question}"]

/-- The conversation context mapping passed to the question generator,
as returned by `get_conversation_context` (a non-empty dict, hence truthy). -/
structure CtxView : Type where
  state : String
  dialogueAct : String
  topic : String
  turnCount : Int
  lastUserInput : String
  lastAgentResponse : String
deriving DecidableEq, Repr

/-- `QuestionGenerator._customize_template` (returns the template unchanged). -/
def customizeTemplate (template : String) (_amb : AmbiguityDetection) : String :=
  template

/-- `QuestionGenerator._add_context_to_question`: wrap the question in a
randomly chosen framing template, substituting the `{question}` placeholder. -/
def addContextToQuestion (question : String) (_ctx : CtxView) (g : Rng) : String × Rng :=
  let (contextualTemplate, g') := rchoice g contextualTemplates
  (contextualTemplate.replace "{question}" question, g')

/-- `QuestionGenerator.generate_clarification_question`. The template lookup
`question_templates.get(type, fallback_templates)` always finds the type,
since every `AmbiguityType` is a key of the table. -/
def generateClarificationQuestion (amb : AmbiguityDetection) (ctx : Option CtxView)
    (g : Rng) : String × Rng :=
  let (template, g') := rchoice g (questionTemplates amb.type)
  let question := customizeTemplate template amb
  match ctx with
  | some c => addContextToQuestion question c g'
  | none => (question, g')

/-- `QuestionGenerator.generate_multiple_questions`: sort by confidence
descending, keep the top `maxQuestions`, generate one question each. -/
def generateMultipleQuestions (ambs : List AmbiguityDetection) (maxQuestions : Nat)
    (ctx : Option CtxView) (g : Rng) : List String × Rng :=
  let top := (sortByConfDesc ambs).take maxQuestions
  top.foldl
    (fun acc amb =>
      let qg := generateClarificationQuestion amb ctx acc.2
      (acc.1 ++ [qg.1], qg.2))
    (([] : List String), g)

/-! ## Timestamps

`datetime` values are modelled as `Nat` ticks; the lossless
`isoformat`/`fromisoformat` pair of the Python standard library is modelled
by a decimal string codec proved to be a left-inverse pair below. -/

def digitChar : Nat → Char
  | 0 => '0' | 1 => '1' | 2 => '2' | 3 => '3' | 4 => '4'
  | 5 => '5' | 6 => '6' | 7 => '7' | 8 => '8' | _ => '9'

def charDigit (c : Char) : Option Nat :=
  if c = '0' then some 0 else if c = '1' then some 1
  else if c = '2' then some 2 else if c = '3' then some 3
  else if c = '4' then some 4 else if c = '5' then some 5
  else if c = '6' then some 6 else if c = '7' then some 7
  else if c = '8' then some 8 else if c = '9' then some 9
  else none

def natEncodeAux : Nat → List Char
  | 0 => []
  | n + 1 => natEncodeAux ((n + 1) / 10) ++ [digitChar ((n + 1) % 10)]
decreasing_by exact Nat.div_lt_self (Nat.succ_pos n) (by norm_num)

/-- `datetime.isoformat`, modelled as the decimal rendering of the tick. -/
def isoformat (t : Nat) : String :=
  if t = 0 then "0" else String.mk (natEncodeAux t)

def decodeAux (acc : Nat) : List Char → Option Nat
  | [] => some acc
  | c :: cs =>
      match charDigit c with
      | some d => decodeAux (acc * 10 + d) cs
      | none => none

/-- `datetime.fromisoformat`, modelled as decimal parsing of the tick. -/
def fromisoformat (s : String) : Option Nat :=
  if s.data.isEmpty then none else decodeAux 0 s.data

/-! ## Conversation state manager (state.py) -/

/-- `ConversationContext` dataclass. `entities` and `metadata` are open-ended
JSON-like payloads carried through unchanged; they are modelled as lists of
string records / string pairs. -/
structure ConversationContext : Type where
  userId : String
  conversationId : String
  state : ConversationState := .initial
  previousState : ConversationState := .initial
  dialogueAct : DialogueAct := .greeting
  topic : String := ""
  entities : List (List (String × String)) := []
  userIntent : String := ""
  lastUserInput : String := ""
  lastAgentResponse : String := ""
  turnCount : Int := 0
  createdAt : Nat
  updatedAt : Nat
  metadata : List (String × String) := []
deriving DecidableEq, Repr

/-- `StateTransition` dataclass. -/
structure StateTransition : Type where
  fromState : ConversationState
  toState : ConversationState
  trigger : String
  timestamp : Nat
deriving DecidableEq, Repr

/-- `ConversationStateManager.max_history_length` (set to 10 at construction,
never reassigned). -/
def maxHistoryLength : Nat := 10

/-- `ConversationStateManager`. The conversation id produced by
`_generate_conversation_id` (a fresh uuid4) is supplied by the caller. -/
structure ConversationStateManager : Type where
  userId : String
  conversationId : String
  context : ConversationContext
  stateHistory : List StateTransition
deriving DecidableEq, Repr

namespace ConversationStateManager

/-- `ConversationStateManager.__init__` with `genId` standing for the fresh
uuid and `now` for `datetime.now()`. -/
def new (userId genId : String) (now : Nat) : ConversationStateManager :=
  { userId := userId, conversationId := genId,
    context := { userId := userId, conversationId := genId,
                 createdAt := now, updatedAt := now },
    stateHistory := [] }

/-- History-capping step of `update_state`: keep the last
`max_history_length` entries when the bound is exceeded
(`self.state_history[-self.max_history_length:]`). -/
def capHistory (l : List StateTransition) : List StateTransition :=
  if maxHistoryLength < l.length then l.drop (l.length - maxHistoryLength) else l

/-- `ConversationStateManager.update_state`. Returns
`(whether the state changed, the manager afterwards)`. -/
def updateState (m : ConversationStateManager) (newState : ConversationState)
    (trigger : String) (now : Nat) : Bool × ConversationStateManager :=
  if newState = m.context.state then (false, m)
  else
    let transition : StateTransition :=
      { fromState := m.context.state, toState := newState,
        trigger := trigger, timestamp := now }
    (true,
      { m with
        stateHistory := capHistory (m.stateHistory ++ [transition]),
        context := { m.context with
          previousState := m.context.state,
          state := newState,
          updatedAt := now } })

/-- `ConversationStateManager.update_dialogue_act`. -/
def updateDialogueAct (m : ConversationStateManager) (act : DialogueAct)
    (now : Nat) : Bool × ConversationStateManager :=
  if act = m.context.dialogueAct then (false, m)
  else
    (true, { m with context := { m.context with dialogueAct := act, updatedAt := now } })

end ConversationStateManager

/-- One keyword argument of `update_context`: a context attribute together
with its new value, or an unknown attribute name (silently ignored by the
`hasattr` guard). -/
inductive CtxField : Type where
  | state (v : ConversationState)
  | previousState (v : ConversationState)
  | dialogueAct (v : DialogueAct)
  | topic (v : String)
  | entities (v : List (List (String × String)))
  | userIntent (v : String)
  | lastUserInput (v : String)
  | lastAgentResponse (v : String)
  | turnCount (v : Int)
  | metadata (v : List (String × String))
  | unknownAttr (name : String)
deriving DecidableEq, Repr

/-- `setattr(self.context, key, value)` for one recognized field. -/
def setCtxField (c : ConversationContext) : CtxField → ConversationContext
  | .state v => { c with state := v }
  | .previousState v => { c with previousState := v }
  | .dialogueAct v => { c with dialogueAct := v }
  | .topic v => { c with topic := v }
  | .entities v => { c with entities := v }
  | .userIntent v => { c with userIntent := v }
  | .lastUserInput v => { c with lastUserInput := v }
  | .lastAgentResponse v => { c with lastAgentResponse := v }
  | .turnCount v => { c with turnCount := v }
  | .metadata v => { c with metadata := v }
  | .unknownAttr _ => c

/-- `hasattr(self.context, key)`. -/
def ctxFieldKnown : CtxField → Bool
  | .unknownAttr _ => false
  | _ => true

namespace ConversationStateManager

/-- `ConversationStateManager.update_context`: set every recognized field,
bump `updated_at` iff at least one was recognized. -/
def updateContext (m : ConversationStateManager) (fields : List CtxField)
    (now : Nat) : Bool × ConversationStateManager :=
  let c := fields.foldl setCtxField m.context
  let updated := fields.any ctxFieldKnown
  if updated then (true, { m with context := { c with updatedAt := now } })
  else (false, { m with context := c })

/-- `ConversationStateManager.reset_conversation` (fresh uuid supplied as
`genId`). -/
def resetConversation (m : ConversationStateManager) (genId : String)
    (now : Nat) : ConversationStateManager :=
  { m with
    conversationId := genId,
    context := { userId := m.userId, conversationId := genId,
                 createdAt := now, updatedAt := now },
    stateHistory := [] }

end ConversationStateManager

/-- The dictionary produced by `ConversationStateManager.to_dict`: enum values
as string tags, timestamps as ISO strings. -/
structure CtxDict : Type where
  user_id : String
  conversation_id : String
  state : String
  previous_state : String
  dialogue_act : String
  topic : String
  entities : List (List (String × String))
  user_intent : String
  last_user_input : String
  last_agent_response : String
  turn_count : Int
  created_at : String
  updated_at : String
  metadata : List (String × String)
deriving DecidableEq, Repr

namespace ConversationStateManager

/-- `ConversationStateManager.to_dict`. -/
def toDict (m : ConversationStateManager) : CtxDict :=
  { user_id := m.context.userId,
    conversation_id := m.context.conversationId,
    state := stateValue m.context.state,
    previous_state := stateValue m.context.previousState,
    dialogue_act := actValue m.context.dialogueAct,
    topic := m.context.topic,
    entities := m.context.entities,
    user_intent := m.context.userIntent,
    last_user_input := m.context.lastUserInput,
    last_agent_response := m.context.lastAgentResponse,
    turn_count := m.context.turnCount,
    created_at := isoformat m.context.createdAt,
    updated_at := isoformat m.context.updatedAt,
    metadata := m.context.metadata }

/-- `ConversationStateManager.from_dict`: build a fresh manager for the
recorded user (with a fresh uuid `genId` and clock `now`), then overwrite
every context field from the dictionary. Enum and timestamp decoding can
fail on a malformed dictionary, hence the `Option`. -/
def fromDict (d : CtxDict) (genId : String) (now : Nat) :
    Option ConversationStateManager :=
  match stateFromValue d.state, stateFromValue d.previous_state,
      actFromValue d.dialogue_act,
      fromisoformat d.created_at, fromisoformat d.updated_at with
  | some st, some prev, some act, some created, some updated =>
      let m := new d.user_id genId now
      some { m with context :=
        { userId := d.user_id,
          conversationId := d.conversation_id,
          state := st,
          previousState := prev,
          dialogueAct := act,
          topic := d.topic,
          entities := d.entities,
          userIntent := d.user_intent,
          lastUserInput := d.last_user_input,
          lastAgentResponse := d.last_agent_response,
          turnCount := d.turn_count,
          createdAt := created,
          updatedAt := updated,
          metadata := d.metadata } }
  | _, _, _, _, _ => none

end ConversationStateManager

/-! ## Response generator (response_generator.py) -/

/-- `ResponseGenerator.response_templates`, keyed by (dialogue act, state). -/
def responseTemplates : DialogueAct × ConversationState → Option (List String)
  | (.greeting, .initial) =>
      some ["Hello! I'm your personal assistant. How can I help you today?",
            "Hi there! What can I do for you?",
            "Greetings! How may I assist you?"]
  | (.greeting, .inProgress) =>
      some ["Hello again! How can I help you further?",
            "Hi! What else can I assist you with?",
            "Welcome back! What would you like to know?"]
  | (.question, .inProgress) =>
      some ["That's a great question. Let me think about that...",
            "I'd be happy to help with that question.",
            "Let me see if I can answer that for you."]
  | (.request, .inProgress) =>
      some ["I'll help you with that request.",
            "Sure, I can assist with that.",
            "Let me take care of that for you."]
  | (.clarification, .askingClarification) =>
      some ["I apologize for any confusion. Let me clarify that for you.",
            "Let me explain that more clearly.",
            "I see you need more information. Here's a better explanation."]
  | (.confirmation, .seekingConfirmation) =>
      some ["Thanks for confirming!",
            "Great, I'll proceed with that.",
            "Perfect, that's helpful to know."]
  | (.acknowledgment, .inProgress) =>
      some ["I'm glad that was helpful!",
            "You're welcome! Is there anything else I can help with?",
            "Happy to assist! What else would you like to know?"]
  | (.closing, .closing) =>
      some ["Goodbye! Have a wonderful day!",
            "It was great chatting with you. Take care!",
            "See you later! Feel free to come back anytime."]
  | (.error, .error) =>
      some ["I'm sorry, I didn't quite understand that. Could you rephrase?",
            "I'm having trouble understanding. Could you try again?",
            "I'm not sure what you mean. Can you explain differently?"]
  | _ => none

/-- `ResponseGenerator.fallback_templates`. -/
def responseFallbackTemplates : List String :=
  ["I understand. What else would you like to know?",
   "Thanks for sharing that. How can I help you further?",
   "I see. Is there anything specific you'd like me to help with?",
   "That's interesting. What would you like to do next?",
   "I'm here to help. What else can I assist you with?"]

/-- Python `needle in haystack` on strings. -/
def strContainsSub (haystack needle : String) : Bool :=
  containsSub (strC haystack) (strC needle)

/-- Python `str.endswith` on strings. -/
def strEndsWith (s suf : String) : Bool :=
  endsWith (strC s) (strC suf)

/-- `ResponseGenerator._enhance_response`: splice the LLM text into the
chosen template following the punctuation rules of the source. -/
def enhanceResponse (template llmResponse : String) : String :=
  if strContainsSub template "{llm_response}" then
    template.replace "{llm_response}" llmResponse
  else if !llmResponse.isEmpty then
    if strEndsWith template "..." then
      String.mk ((strC template).take ((strC template).length - 3)) ++ llmResponse
    else if strEndsWith template "." || strEndsWith template "!" ||
        strEndsWith template "?" then
      template ++ " " ++ llmResponse
    else
      template ++ ". " ++ llmResponse
  else template

/-- `ResponseGenerator.generate_response`. -/
def generateResponse (_userInput llmResponse : String)
    (m : ConversationStateManager) (act : DialogueAct) (g : Rng) : String × Rng :=
  let templates := (responseTemplates (act, m.context.state)).getD responseFallbackTemplates
  let (template, g') := rchoice g templates
  (enhanceResponse template llmResponse, g')

/-! ## Enhanced conversation interface (interface.py) -/

/-- `EnhancedConversationInterface`: the state manager, the private
conversation history of `{role, content}` entries, and the ambiguity
threshold (0.6 at construction, never reassigned). -/
structure EnhancedConversationInterface : Type where
  stateManager : ConversationStateManager
  conversationHistory : List (String × String)
  ambiguityThreshold : ℚ

namespace EnhancedConversationInterface

/-- `EnhancedConversationInterface.__init__`. -/
def new (userId genId : String) (now : Nat) : EnhancedConversationInterface :=
  { stateManager := ConversationStateManager.new userId genId now,
    conversationHistory := [],
    ambiguityThreshold := 6/10 }

/-- `EnhancedConversationInterface.get_conversation_context`. -/
def getConversationContext (iface : EnhancedConversationInterface) : CtxView :=
  let c := iface.stateManager.context
  { state := stateValue c.state,
    dialogueAct := actValue c.dialogueAct,
    topic := c.topic,
    turnCount := c.turnCount,
    lastUserInput := c.lastUserInput,
    lastAgentResponse := c.lastAgentResponse }

/-- `EnhancedConversationInterface._update_conversation_state`: let the
recognized dialogue act drive the state transition. -/
def updateConversationState (m : ConversationStateManager) (act : DialogueAct)
    (now : Nat) : ConversationStateManager :=
  let currentState := m.context.state
  let trigger := "dialogue_act:" ++ actValue act
  if act = .greeting then
    if currentState = .initial then (m.updateState .greeting trigger now).2
    else (m.updateState .inProgress trigger now).2
  else if act = .closing then (m.updateState .closing trigger now).2
  else if act = .clarification then (m.updateState .askingClarification trigger now).2
  else if act = .confirmation then (m.updateState .seekingConfirmation trigger now).2
  else if act = .question ∨ act = .request then
    (m.updateState .providingInformation trigger now).2
  else if currentState = .initial then (m.updateState .inProgress trigger now).2
  else m

/-- Fallback template pool of `_generate_template_response`, keyed by act. -/
def fallbackTemplatesByAct : DialogueAct → Option (List String)
  | .greeting => some ["Hello! How can I help you today?"]
  | .question => some ["That's an interesting question."]
  | .request => some ["I'll help you with that."]
  | .statement => some ["I see. Tell me more."]
  | .closing => some ["Goodbye! Have a great day!"]
  | .error => some ["I'm sorry, I didn't understand that."]
  | _ => none

/-- `EnhancedConversationInterface._generate_template_response`. -/
def generateTemplateResponse (m : ConversationStateManager) (act : DialogueAct)
    (g : Rng) : String × Rng :=
  match responseTemplates (act, m.context.state) with
  | some templates => rchoice g templates
  | none =>
      let templates := (fallbackTemplatesByAct act).getD
        ["I'm here to help. What can I do for you?"]
      rchoice g templates

/-- `"\n".join(...)` of Python. -/
def joinSep (sep : String) : List String → String
  | [] => ""
  | [x] => x
  | x :: xs => x ++ sep ++ joinSep sep xs

/-- `f"{i + 1}. {q}"` lines of the multi-question response, enumerating
from `i`. -/
def numberedLines (i : Nat) : List String → List String
  | [] => []
  | q :: qs => (toString (i + 1) ++ ". " ++ q) :: numberedLines (i + 1) qs

/-- The header of the multi-question clarification response. -/
def clarifyHeader : String :=
  "I'd like to clarify a few things:\n"

/-- The clarification questions generated on the ambiguous branch of
`process_input`: up to 2 questions for the high-confidence ambiguities,
with the current conversation context as `context`. -/
def clarificationQuestions (iface : EnhancedConversationInterface)
    (highConfidenceAmbiguities : List AmbiguityDetection) (g : Rng) :
    List String × Rng :=
  generateMultipleQuestions highConfidenceAmbiguities 2
    (some iface.getConversationContext) g

/-- The state manager after the context and dialogue-act updates that open
`process_input`, before the ambiguity branch. -/
def preBranchManager (iface : EnhancedConversationInterface) (userInput : String)
    (now : Nat) : ConversationStateManager :=
  let sm0 := iface.stateManager
  let sm1 := (sm0.updateContext
    [.lastUserInput userInput, .turnCount (sm0.context.turnCount + 1)] now).2
  (sm1.updateDialogueAct (recognizeAct userInput).1 now).2

/-- The response construction of the ambiguous branch: one question is
returned verbatim, several are numbered under the clarification header. -/
def clarifyResponse (questions : List String) : String :=
  if questions.length = 1 then questions.getD 0 ""
  else clarifyHeader ++ joinSep "\n" (numberedLines 0 questions)

/-- The response of the clear branch of `process_input`: blend a supplied
(non-empty) LLM response with a template, otherwise answer from the
template pools alone (`llm_response` is also falsy when empty). -/
def clearResponse (sm3 : ConversationStateManager) (userInput : String)
    (llmResponse : Option String) (act : DialogueAct) (g : Rng) : String :=
  match llmResponse with
  | some llm =>
      if !llm.isEmpty then (generateResponse userInput llm sm3 act g).1
      else (generateTemplateResponse sm3 act g).1
  | none => (generateTemplateResponse sm3 act g).1

/-- The high-confidence ambiguities `process_input` filters from the
detector's output. -/
def highConfidenceAmbiguities (iface : EnhancedConversationInterface)
    (userInput : String) : List AmbiguityDetection :=
  (detectAmbiguities userInput).filter
    (fun amb => iface.ambiguityThreshold ≤ amb.confidence)

/-- The clarification questions generated on the ambiguous branch: up to 2,
for the high-confidence ambiguities, passing the current conversation
context (after the opening updates) as `context`. -/
def processQuestions (iface : EnhancedConversationInterface) (userInput : String)
    (g : Rng) (now : Nat) : List String :=
  (EnhancedConversationInterface.clarificationQuestions
    { iface with stateManager := preBranchManager iface userInput now }
    (highConfidenceAmbiguities iface userInput) g).1

/-- The response produced by `process_input`: the clarification question(s)
on the ambiguous branch, the template/LLM blend on the clear branch. -/
def branchResponse (iface : EnhancedConversationInterface) (userInput : String)
    (llmResponse : Option String) (g : Rng) (now : Nat) : String :=
  if !(highConfidenceAmbiguities iface userInput).isEmpty then
    clarifyResponse (processQuestions iface userInput g now)
  else
    clearResponse
      (updateConversationState (preBranchManager iface userInput now)
        (recognizeAct userInput).1 now)
      userInput llmResponse (recognizeAct userInput).1 g

/-- The state manager after the branch of `process_input`: force-transitioned
to `ASKING_CLARIFICATION` on the ambiguous branch, driven by the dialogue
act on the clear branch. -/
def branchManager (iface : EnhancedConversationInterface) (userInput : String)
    (now : Nat) : ConversationStateManager :=
  let sm2 := preBranchManager iface userInput now
  let highConfidence := highConfidenceAmbiguities iface userInput
  if !highConfidence.isEmpty then
    (sm2.updateState .askingClarification "ambiguity_detected" now).2
  else updateConversationState sm2 (recognizeAct userInput).1 now

/-- `EnhancedConversationInterface.process_input`. `llmResponse = none`
models the `llm_response=None` default; `g` supplies the random draws and
`now` the wall clock. Returns the response and the interface afterwards. -/
def processInput (iface : EnhancedConversationInterface) (userInput : String)
    (llmResponse : Option String) (g : Rng) (now : Nat) :
    String × EnhancedConversationInterface :=
  let response := branchResponse iface userInput llmResponse g now
  let sm4 := ((branchManager iface userInput now).updateContext
    [.lastAgentResponse response] now).2
  (response,
    { iface with
      stateManager := sm4,
      conversationHistory := iface.conversationHistory ++
        [("user", userInput), ("assistant", response)] })

/-- `EnhancedConversationInterface.reset_conversation`. -/
def resetConversation (iface : EnhancedConversationInterface) (genId : String)
    (now : Nat) : EnhancedConversationInterface :=
  { iface with
    stateManager := iface.stateManager.resetConversation genId now,
    conversationHistory := [] }

end EnhancedConversationInterface

/-! ## Auxiliary definitions for the claims -/

/-- The last `k` elements of a list, in order (`l[-k:]`). -/
def lastTransitions (k : Nat) (l : List StateTransition) : List StateTransition :=
  l.drop (l.length - k)

/-- One public call on a `ConversationStateManager`: the four mutating
methods, with their wall-clock instants and fresh ids supplied. -/
inductive MOp : Type where
  | upState (s : ConversationState) (trig : String) (now : Nat)
  | upAct (a : DialogueAct) (now : Nat)
  | upCtx (fields : List CtxField) (now : Nat)
  | reset (genId : String) (now : Nat)
deriving DecidableEq, Repr

/-- Run a sequence of calls, also accumulating the full uncapped log of
accepted transitions since the last reset. -/
def runLog : ConversationStateManager → List StateTransition → List MOp →
    ConversationStateManager × List StateTransition
  | m, log, [] => (m, log)
  | m, log, .upState s trig now :: ops =>
      runLog (m.updateState s trig now).2
        (if (m.updateState s trig now).1 then
          log ++ [⟨m.context.state, s, trig, now⟩] else log) ops
  | m, log, .upAct a now :: ops => runLog (m.updateDialogueAct a now).2 log ops
  | m, log, .upCtx fs now :: ops => runLog (m.updateContext fs now).2 log ops
  | m, _log, .reset genId now :: ops => runLog (m.resetConversation genId now) [] ops

/-- A sequence of `process_input` calls: each with its input, optional LLM
response, random draws and wall clock. -/
def processTurns (iface : EnhancedConversationInterface) :
    List (String × Option String × Rng × Nat) → EnhancedConversationInterface
  | [] => iface
  | c :: cs =>
      processTurns (EnhancedConversationInterface.processInput
        iface c.1 c.2.1 c.2.2.1 c.2.2.2).2 cs

/-- The questions produced by threading the RNG through
`generate_clarification_question`, one per ambiguity. -/
def genQList (ctx : Option CtxView) : List AmbiguityDetection → Rng → List String
  | [], _ => []
  | a :: as, g =>
      (generateClarificationQuestion a ctx g).1 ::
        genQList ctx as (generateClarificationQuestion a ctx g).2

/-- The one detection the ambiguity detector reports on
`"Please help me with this task"`: the demonstrative `"this"` (an ENTITY
pattern word) at offsets 20–24, at the entity base confidence 0.7. -/
def scenario3Detection : AmbiguityDetection :=
  { type := .entityAmbiguity, confidence := 7/10,
    description := "Unclear reference to 'this'",
    position := (20, 24),
    suggestedClarification := "Could you be more specific about what you're referring to?" }

/-! ## Supporting lemmas -/

theorem stateFromValue_stateValue (s : ConversationState) :
    stateFromValue (stateValue s) = some s := by
  cases s <;> rfl

theorem actFromValue_actValue (a : DialogueAct) :
    actFromValue (actValue a) = some a := by
  cases a <;> rfl

theorem charDigit_digitChar (d : Nat) (h : d < 10) :
    charDigit (digitChar d) = some d := by
  interval_cases d <;> rfl

theorem decodeAux_append (acc : Nat) (l1 l2 : List Char) :
    decodeAux acc (l1 ++ l2) = (decodeAux acc l1).bind (fun a => decodeAux a l2) := by
  induction l1 generalizing acc with
  | nil => rfl
  | cons c cs ih =>
      simp only [List.cons_append, decodeAux]
      cases charDigit c <;> simp [ih]

theorem decodeAux_natEncodeAux (n : Nat) :
    ∀ acc, decodeAux acc (natEncodeAux n) =
      some (acc * 10 ^ (natEncodeAux n).length + n) := by
  induction n using Nat.strong_induction_on with
  | _ n ih =>
    match n with
    | 0 => intro acc; simp [natEncodeAux, decodeAux]
    | m + 1 =>
      intro acc
      have hdiv : (m + 1) / 10 < m + 1 := Nat.div_lt_self (Nat.succ_pos m) (by norm_num)
      have hmod : (m + 1) % 10 < 10 := Nat.mod_lt _ (by norm_num)
      rw [natEncodeAux, decodeAux_append, ih ((m + 1) / 10) hdiv acc]
      simp only [Option.some_bind, decodeAux, charDigit_digitChar _ hmod,
        List.length_append, List.length_cons, List.length_nil, Nat.zero_add]
      congr 1
      rw [pow_succ]
      set q := (m + 1) / 10 with hq
      set r := (m + 1) % 10 with hr
      set P := (10 : Nat) ^ (natEncodeAux q).length with hP
      have h1 : q * 10 + r = m + 1 := by omega
      rw [← h1]
      ring

theorem natEncodeAux_ne_nil (n : Nat) (h : 0 < n) : natEncodeAux n ≠ [] := by
  match n with
  | m + 1 => rw [natEncodeAux]; simp

theorem fromisoformat_isoformat (t : Nat) : fromisoformat (isoformat t) = some t := by
  by_cases ht : t = 0
  · subst ht; rfl
  · have hpos : 0 < t := Nat.pos_of_ne_zero ht
    unfold isoformat fromisoformat
    rw [if_neg ht]
    have hne := natEncodeAux_ne_nil t hpos
    have hdata : (String.mk (natEncodeAux t)).data = natEncodeAux t := rfl
    rw [hdata, if_neg (by simpa [List.isEmpty_iff] using hne)]
    rw [decodeAux_natEncodeAux t 0]
    simp

/-- `update_context` with the two opening kwargs of `process_input`. -/
theorem updateContext_open (m : ConversationStateManager) (u : String) (v : Int)
    (now : Nat) :
    m.updateContext [.lastUserInput u, .turnCount v] now =
      (true, { m with context :=
        { m.context with lastUserInput := u, turnCount := v, updatedAt := now } }) := rfl

/-- `update_context` with the closing kwarg of `process_input`. -/
theorem updateContext_close (m : ConversationStateManager) (r : String) (now : Nat) :
    m.updateContext [.lastAgentResponse r] now =
      (true, { m with context :=
        { m.context with lastAgentResponse := r, updatedAt := now } }) := rfl

theorem updateDialogueAct_frame (m : ConversationStateManager) (a : DialogueAct)
    (now : Nat) :
    (m.updateDialogueAct a now).2.context.state = m.context.state ∧
    (m.updateDialogueAct a now).2.context.turnCount = m.context.turnCount ∧
    (m.updateDialogueAct a now).2.stateHistory = m.stateHistory := by
  simp only [ConversationStateManager.updateDialogueAct]
  split <;> simp

theorem updateState_state (m : ConversationStateManager) (s : ConversationState)
    (trig : String) (now : Nat) :
    (m.updateState s trig now).2.context.state = s := by
  simp only [ConversationStateManager.updateState]
  split
  · next h => simpa using h.symm
  · simp

theorem updateState_turnCount (m : ConversationStateManager) (s : ConversationState)
    (trig : String) (now : Nat) :
    (m.updateState s trig now).2.context.turnCount = m.context.turnCount := by
  simp only [ConversationStateManager.updateState]
  split <;> simp

theorem updateConversationState_turnCount (m : ConversationStateManager)
    (act : DialogueAct) (now : Nat) :
    (EnhancedConversationInterface.updateConversationState m act now).context.turnCount =
      m.context.turnCount := by
  simp only [EnhancedConversationInterface.updateConversationState]
  split_ifs <;> simp [updateState_turnCount]

/-! ## Claims -/

/-- C4: `update_state` with the current state is a no-op returning `false`
and changing nothing; immediately repeating an update with the same target
state is always a no-op, so only the first of two equal-target calls appends
a (capped) history entry. -/
theorem update_state_same_state_noop (m : ConversationStateManager)
    (s : ConversationState) (trig trig2 : String) (n n2 : Nat) :
    (s = m.context.state → m.updateState s trig n = (false, m)) ∧
    ((m.updateState s trig n).2.updateState s trig2 n2 =
      (false, (m.updateState s trig n).2)) ∧
    (s ≠ m.context.state →
      (m.updateState s trig n).1 = true ∧
      (m.updateState s trig n).2.stateHistory = ConversationStateManager.capHistory
        (m.stateHistory ++ [⟨m.context.state, s, trig, n⟩])) := by
  refine ⟨fun h => by simp [ConversationStateManager.updateState, h], ?_, fun h => ?_⟩
  · set m1 := (m.updateState s trig n).2 with hm1
    have hs : m1.context.state = s := updateState_state m s trig n
    simp [ConversationStateManager.updateState, hs]
  · simp [ConversationStateManager.updateState, h]

/-- C4 witness: at a fresh manager, updating to the current state `INITIAL`
returns `false` and changes nothing, and of two successive updates to
`GREETING` only the first appends a history entry. -/
theorem update_state_same_state_noop_witness :
    ((ConversationStateManager.new "u" "c" 0).updateState .initial "t" 1 =
      (false, ConversationStateManager.new "u" "c" 0)) ∧
    (((ConversationStateManager.new "u" "c" 0).updateState .greeting "t" 1).2.updateState
        .greeting "t2" 2 =
      (false, ((ConversationStateManager.new "u" "c" 0).updateState .greeting "t" 1).2)) ∧
    (((ConversationStateManager.new "u" "c" 0).updateState .greeting "t" 1).1 = true ∧
      ((ConversationStateManager.new "u" "c" 0).updateState .greeting "t" 1).2.stateHistory =
        ConversationStateManager.capHistory
          ((ConversationStateManager.new "u" "c" 0).stateHistory ++
            [⟨.initial, .greeting, "t", 1⟩])) :=
  ⟨(update_state_same_state_noop (ConversationStateManager.new "u" "c" 0)
      .initial "t" "t2" 1 2).1 (by decide),
   (update_state_same_state_noop (ConversationStateManager.new "u" "c" 0)
      .greeting "t" "t2" 1 2).2.1,
   (update_state_same_state_noop (ConversationStateManager.new "u" "c" 0)
      .greeting "t" "t2" 1 2).2.2 (by decide)⟩

/-- C3: in the clear branch, `_update_conversation_state` drives the state as
a pure function of the recognized act and the current state, and for
unlisted acts in a non-initial state no transition call is made at all. -/
theorem update_conversation_state_table (m : ConversationStateManager)
    (act : DialogueAct) (now : Nat) :
    ((EnhancedConversationInterface.updateConversationState m act now).context.state =
      (match act, m.context.state with
        | .greeting, .initial => .greeting
        | .greeting, _ => .inProgress
        | .closing, _ => .closing
        | .clarification, _ => .askingClarification
        | .confirmation, _ => .seekingConfirmation
        | .question, _ => .providingInformation
        | .request, _ => .providingInformation
        | _, .initial => .inProgress
        | _, s => s)) ∧
    ((act = .statement ∨ act = .acknowledgment ∨ act = .error) →
      m.context.state ≠ .initial →
      EnhancedConversationInterface.updateConversationState m act now = m) := by
  constructor
  · cases act <;> cases h : m.context.state <;>
      simp [EnhancedConversationInterface.updateConversationState,
        ConversationStateManager.updateState, h]
  · rintro (rfl | rfl | rfl) hne <;>
      simp [EnhancedConversationInterface.updateConversationState, hne]

/-- C6: `to_dict` followed by `from_dict` succeeds and reproduces an
equivalent context: `to_dict (from_dict (to_dict m)) = to_dict m`, the enum
tags and ISO timestamps surviving the round-trip. -/
theorem to_dict_from_dict_roundtrip (m : ConversationStateManager)
    (genId : String) (now : Nat) :
    ∃ m', ConversationStateManager.fromDict m.toDict genId now = some m' ∧
      m'.toDict = m.toDict := by
  simp only [ConversationStateManager.fromDict, ConversationStateManager.toDict,
    stateFromValue_stateValue, actFromValue_actValue, fromisoformat_isoformat]
  exact ⟨_, rfl, rfl⟩

theorem calculatePatternScore_cases (t : List Char) (ps : List Rx) :
    calculatePatternScore t ps = 0 ∨ calculatePatternScore t ps = 7/10 ∨
    calculatePatternScore t ps = 9/10 := by
  induction ps with
  | nil => left; rfl
  | cons p ps ih =>
      simp only [calculatePatternScore]
      split_ifs with h1 h2
      · right; right; rfl
      · right; left; rfl
      · exact ih

theorem calculatePatternScore_nonneg (t : List Char) (ps : List Rx) :
    0 ≤ calculatePatternScore t ps := by
  rcases calculatePatternScore_cases t ps with h | h | h <;> rw [h] <;> norm_num

theorem calculatePatternScore_le_one (t : List Char) (ps : List Rx) :
    calculatePatternScore t ps ≤ 1 := by
  rcases calculatePatternScore_cases t ps with h | h | h <;> rw [h] <;> norm_num

theorem recognize_fold_bounds (t : List Char) (l : List (DialogueAct × List Rx)) :
    ∀ b : DialogueAct × ℚ, 0 ≤ b.2 → b.2 ≤ 1 →
      0 ≤ (l.foldl (fun best ap =>
          let score := calculatePatternScore t ap.2
          if best.2 < score then (ap.1, score) else best) b).2 ∧
      (l.foldl (fun best ap =>
          let score := calculatePatternScore t ap.2
          if best.2 < score then (ap.1, score) else best) b).2 ≤ 1 := by
  induction l with
  | nil => exact fun b h0 h1 => ⟨h0, h1⟩
  | cons ap l ih =>
      intro b h0 h1
      simp only [List.foldl_cons]
      by_cases hlt : b.2 < calculatePatternScore t ap.2
      · simpa [hlt] using ih (ap.1, calculatePatternScore t ap.2)
          (calculatePatternScore_nonneg t ap.2) (calculatePatternScore_le_one t ap.2)
      · simpa [hlt] using ih b h0 h1

/-- C8: `recognize_act` is total: the empty lowercased trimmed form yields
exactly `(ERROR, 0.0)`, and any other input yields an act of the closed
`DialogueAct` enumeration with a confidence in `[0, 1]`. -/
theorem recognize_act_total (text : String) :
    (pyStrip (pyLower (strC text)) = [] → recognizeAct text = (.error, 0)) ∧
    (pyStrip (pyLower (strC text)) ≠ [] →
      (recognizeAct text).1 ∈ ([.greeting, .question, .statement, .request,
        .confirmation, .clarification, .acknowledgment, .closing, .error] :
          List DialogueAct) ∧
      0 ≤ (recognizeAct text).2 ∧ (recognizeAct text).2 ≤ 1) := by
  constructor
  · intro h; simp [recognizeAct, h]
  · intro h
    refine ⟨by cases (recognizeAct text).1 <;> simp, ?_⟩
    simp only [recognizeAct]
    rw [if_neg (by simpa [List.isEmpty_iff] using h)]
    exact recognize_fold_bounds (pyStrip (pyLower (strC text))) dialoguePatterns
      (.statement, 1/10) (by norm_num) (by norm_num)

set_option maxRecDepth 100000

theorem calculatePatternScore_eq_find (t : List Char) (ps : List Rx) :
    calculatePatternScore t ps =
      (match ps.find? (fun p => searchB p t) with
        | some p => if fullmatchB p t then 9/10 else 7/10
        | none => 0) := by
  induction ps with
  | nil => rfl
  | cons p ps ih =>
      cases hs : searchB p t with
      | true =>
          rw [List.find?_cons_of_pos _ (by simp [hs])]
          simp [calculatePatternScore, hs]
      | false =>
          rw [List.find?_cons_of_neg _ (by simp [hs])]
          simp [calculatePatternScore, hs, ih]

theorem recognize_foldl_spec (t : List Char) (l : List (DialogueAct × List Rx)) :
    ∀ b : DialogueAct × ℚ,
      (b.2 ≤ (l.foldl (fun best ap =>
          let score := calculatePatternScore t ap.2
          if best.2 < score then (ap.1, score) else best) b).2) ∧
      (∀ ap ∈ l, calculatePatternScore t ap.2 ≤ (l.foldl (fun best ap =>
          let score := calculatePatternScore t ap.2
          if best.2 < score then (ap.1, score) else best) b).2) ∧
      ((l.foldl (fun best ap =>
          let score := calculatePatternScore t ap.2
          if best.2 < score then (ap.1, score) else best) b) = b ∨
        ∃ ap ∈ l, (l.foldl (fun best ap =>
          let score := calculatePatternScore t ap.2
          if best.2 < score then (ap.1, score) else best) b) =
            (ap.1, calculatePatternScore t ap.2)) := by
  induction l with
  | nil => exact fun b => ⟨le_refl _, by simp, Or.inl rfl⟩
  | cons ap l ih =>
      intro b
      rw [List.foldl_cons]
      by_cases hlt : b.2 < calculatePatternScore t ap.2
      · have hstep : (let score := calculatePatternScore t ap.2
            if b.2 < score then (ap.1, score) else b) =
            (ap.1, calculatePatternScore t ap.2) := by
          show (if b.2 < calculatePatternScore t ap.2 then
              (ap.1, calculatePatternScore t ap.2) else b) = _
          rw [if_pos hlt]
        rw [hstep]
        obtain ⟨h1, h2, h3⟩ := ih (ap.1, calculatePatternScore t ap.2)
        refine ⟨le_trans (le_of_lt hlt) (by simpa using h1), fun ap' hap' => ?_, ?_⟩
        · rcases List.mem_cons.1 hap' with rfl | hmem
          · simpa using h1
          · exact h2 ap' hmem
        · rcases h3 with heq | ⟨ap', hmem, heq⟩
          · exact Or.inr ⟨ap, List.mem_cons_self _ _, heq⟩
          · exact Or.inr ⟨ap', List.mem_cons_of_mem _ hmem, heq⟩
      · have hstep : (let score := calculatePatternScore t ap.2
            if b.2 < score then (ap.1, score) else b) = b := by
          show (if b.2 < calculatePatternScore t ap.2 then
              (ap.1, calculatePatternScore t ap.2) else b) = _
          rw [if_neg hlt]
        rw [hstep]
        obtain ⟨h1, h2, h3⟩ := ih b
        refine ⟨h1, fun ap' hap' => ?_, ?_⟩
        · rcases List.mem_cons.1 hap' with rfl | hmem
          · exact le_trans (not_lt.1 hlt) h1
          · exact h2 ap' hmem
        · rcases h3 with heq | ⟨ap', hmem, heq⟩
          · exact Or.inl heq
          · exact Or.inr ⟨ap', List.mem_cons_of_mem _ hmem, heq⟩

/-- C7 counterexample: on `"so what is it?"` the third QUESTION pattern
(`.*\?$`) fully matches the lowercased trimmed text, yet the per-act
QUESTION score computed by `recognize_act` is 0.7, not the 0.9 the claim
requires: the first pattern that `re.search` finds decides the score. -/
theorem pattern_score_fullmatch_counterexample :
    ([questionP1, questionP2, questionP3].any
      (fun p => fullmatchB p (pyStrip (pyLower (strC "so what is it?")))) = true) ∧
    calculatePatternScore (pyStrip (pyLower (strC "so what is it?")))
      [questionP1, questionP2, questionP3] = 7/10 ∧
    recognizeAct "so what is it?" = (.question, 7/10) ∧
    (7/10 : ℚ) ≠ 9/10 := by
  with_unfolding_all decide

/-- C7 amended: the per-act score is decided by the first pattern (in table
order) that matches as a substring — 0.9 when that same pattern also fully
matches, 0.7 otherwise, 0.0 when none matches — and for non-empty input
`recognize_act` returns the best-scoring act over the table (strict
improvement over the running best, first act wins ties), defaulting to
`(STATEMENT, 0.1)`. -/
theorem pattern_score_amended :
    (∀ (t : List Char) (ps : List Rx),
      calculatePatternScore t ps =
        (match ps.find? (fun p => searchB p t) with
          | some p => if fullmatchB p t then 9/10 else 7/10
          | none => 0)) ∧
    (∀ text : String,
      pyStrip (pyLower (strC text)) ≠ [] →
      ((1/10 : ℚ) ≤ (recognizeAct text).2 ∧
       (∀ ap ∈ dialoguePatterns,
          calculatePatternScore (pyStrip (pyLower (strC text))) ap.2 ≤
            (recognizeAct text).2) ∧
       (recognizeAct text = (.statement, 1/10) ∨
        ∃ ap ∈ dialoguePatterns,
          recognizeAct text =
            (ap.1, calculatePatternScore (pyStrip (pyLower (strC text))) ap.2)))) := by
  refine ⟨calculatePatternScore_eq_find, fun text h => ?_⟩
  have hspec := recognize_foldl_spec (pyStrip (pyLower (strC text)))
    dialoguePatterns (.statement, 1/10)
  refine ⟨?_, ?_, ?_⟩
  · simp only [recognizeAct]
    rw [if_neg (by simpa [List.isEmpty_iff] using h)]
    exact hspec.1
  · simp only [recognizeAct]
    rw [if_neg (by simpa [List.isEmpty_iff] using h)]
    exact hspec.2.1
  · simp only [recognizeAct]
    rw [if_neg (by simpa [List.isEmpty_iff] using h)]
    exact hspec.2.2

theorem insertByConfDesc_perm (x : AmbiguityDetection) (l : List AmbiguityDetection) :
    List.Perm (insertByConfDesc x l) (x :: l) := by
  induction l with
  | nil => exact List.Perm.refl _
  | cons y ys ih =>
      simp only [insertByConfDesc]
      split
      · exact List.Perm.refl _
      · exact (ih.cons y).trans (List.Perm.swap x y ys)

theorem sortByConfDesc_perm (l : List AmbiguityDetection) : List.Perm (sortByConfDesc l) l := by
  induction l with
  | nil => exact List.Perm.refl _
  | cons x xs ih => exact (insertByConfDesc_perm x _).trans (ih.cons x)

theorem insertByConfDesc_pairwise (x : AmbiguityDetection) (l : List AmbiguityDetection)
    (h : l.Pairwise (fun a b => b.confidence ≤ a.confidence)) :
    (insertByConfDesc x l).Pairwise (fun a b => b.confidence ≤ a.confidence) := by
  induction l with
  | nil => simp [insertByConfDesc]
  | cons y ys ih =>
      rw [List.pairwise_cons] at h
      obtain ⟨hy, hys⟩ := h
      simp only [insertByConfDesc]
      split
      · next hle =>
          rw [List.pairwise_cons]
          refine ⟨fun b hb => ?_, List.pairwise_cons.2 ⟨hy, hys⟩⟩
          rcases List.mem_cons.1 hb with rfl | hmem
          · exact hle
          · exact le_trans (hy b hmem) hle
      · next hgt =>
          rw [List.pairwise_cons]
          refine ⟨fun b hb => ?_, ih hys⟩
          rcases List.mem_cons.1 ((insertByConfDesc_perm x ys).mem_iff.1 hb) with rfl | hmem
          · exact le_of_not_le hgt
          · exact hy b hmem

theorem sortByConfDesc_pairwise (l : List AmbiguityDetection) :
    (sortByConfDesc l).Pairwise (fun a b => b.confidence ≤ a.confidence) := by
  induction l with
  | nil => exact List.Pairwise.nil
  | cons x xs ih => exact insertByConfDesc_pairwise x _ ih

theorem removeDupsAux_subset (seen : List (Nat × Nat × String))
    (l : List AmbiguityDetection) : ∀ d ∈ removeDupsAux seen l, d ∈ l := by
  induction l generalizing seen with
  | nil => simp [removeDupsAux]
  | cons x xs ih =>
      intro d hd
      simp only [removeDupsAux] at hd
      split at hd
      · exact List.mem_cons_of_mem _ (ih seen d hd)
      · rcases List.mem_cons.1 hd with rfl | hmem
        · exact List.mem_cons_self _ _
        · exact List.mem_cons_of_mem _ (ih _ d hmem)

theorem removeDupsAux_keys (l : List AmbiguityDetection) :
    ∀ seen : List (Nat × Nat × String),
      ((removeDupsAux seen l).Pairwise (fun a b => dupKey a ≠ dupKey b)) ∧
      (∀ d ∈ removeDupsAux seen l, ¬ seen.contains (dupKey d) = true) := by
  induction l with
  | nil => exact fun seen => ⟨List.Pairwise.nil, by simp [removeDupsAux]⟩
  | cons x xs ih =>
      intro seen
      simp only [removeDupsAux]
      split
      · next hc => exact ⟨(ih seen).1, fun d hd => (ih seen).2 d hd⟩
      · next hc =>
          have ih' := ih (dupKey x :: seen)
          refine ⟨List.pairwise_cons.2 ⟨fun e he => ?_, ih'.1⟩, fun d hd => ?_⟩
          · have hne := ih'.2 e he
            intro heq
            exact hne (by simp [List.contains_cons, heq.symm])
          · rcases List.mem_cons.1 hd with rfl | hmem
            · exact hc
            · have hne := ih'.2 d hmem
              intro hcontra
              refine hne ?_
              simp only [List.contains_cons, Bool.or_eq_true]
              exact Or.inr hcontra

theorem removeDupsAux_covers (l : List AmbiguityDetection) :
    ∀ seen : List (Nat × Nat × String), ∀ d ∈ l,
      seen.contains (dupKey d) = true ∨
      ∃ e ∈ removeDupsAux seen l, dupKey e = dupKey d := by
  induction l with
  | nil => simp
  | cons x xs ih =>
      intro seen d hd
      simp only [removeDupsAux]
      rcases List.mem_cons.1 hd with rfl | hmem
      · by_cases hc : seen.contains (dupKey d) = true
        · exact Or.inl hc
        · rw [if_neg hc]
          exact Or.inr ⟨d, List.mem_cons_self _ _, rfl⟩
      · by_cases hc : seen.contains (dupKey x) = true
        · rw [if_pos hc]
          exact ih seen d hmem
        · rw [if_neg hc]
          rcases ih (dupKey x :: seen) d hmem with hin | ⟨e, he, hkey⟩
          · rcases (by simpa [List.contains_cons] using hin :
                dupKey d = dupKey x ∨ seen.contains (dupKey d) = true) with heq | hseen
            · exact Or.inr ⟨x, List.mem_cons_self _ _, heq.symm⟩
            · exact Or.inl hseen
          · exact Or.inr ⟨e, List.mem_cons_of_mem _ he, hkey⟩

theorem calculateConfidence_bounds (ty : AmbiguityType) (matched textLower : List Char) :
    0 ≤ calculateConfidence ty matched textLower ∧
    calculateConfidence ty matched textLower ≤ 1 :=
  ⟨le_max_left _ _, max_le zero_le_one (min_le_left _ _)⟩

theorem rawDetections_bounds (text : String) :
    ∀ d ∈ rawDetections text, 0 ≤ d.confidence ∧ d.confidence ≤ 1 := by
  intro d hd
  simp only [rawDetections, List.mem_append] at hd
  rcases hd with (hpat | hkey) | hdia
  · rcases List.mem_flatMap.1 hpat with ⟨typs, _, hp⟩
    rcases List.mem_flatMap.1 hp with ⟨p, _, hm⟩
    rcases List.mem_map.1 hm with ⟨span, _, rfl⟩
    exact calculateConfidence_bounds _ _ _
  · simp only [detectKeywordAmbiguities, List.mem_append] at hkey
    rcases hkey with hv | hi
    · rcases List.mem_filterMap.1 hv with ⟨term, _, hsome⟩
      split at hsome
      · cases hsome; constructor <;> norm_num
      · cases hsome
    · rcases List.mem_filterMap.1 hi with ⟨phrase, _, hsome⟩
      split at hsome
      · cases hsome; constructor <;> norm_num
      · cases hsome
  · cases ho : detectDialogueActAmbiguity text with
    | none => rw [ho] at hdia; cases hdia
    | some e =>
        rw [ho] at hdia
        have hde : d = e := by simpa using hdia
        subst hde
        simp only [detectDialogueActAmbiguity] at ho
        split at ho
        · split at ho
          · cases ho; constructor <;> norm_num
          · cases ho
        · cases ho

/-- C9: `detect_ambiguities` returns a list sorted by confidence descending,
whose elements have pairwise distinct `(start, end, type)` keys and
confidences in `[0, 1]`; every key of the raw scan survives through its
first occurrence (later duplicates are the ones dropped). -/
theorem detect_ambiguities_sorted_unique (text : String) :
    ((detectAmbiguities text).Pairwise (fun a b => b.confidence ≤ a.confidence)) ∧
    ((detectAmbiguities text).Pairwise (fun a b => dupKey a ≠ dupKey b)) ∧
    (∀ d ∈ detectAmbiguities text, 0 ≤ d.confidence ∧ d.confidence ≤ 1) ∧
    (∀ d ∈ rawDetections text, ∃ e ∈ detectAmbiguities text, dupKey e = dupKey d) := by
  have hperm : List.Perm (detectAmbiguities text) (removeDuplicates (rawDetections text)) :=
    sortByConfDesc_perm _
  refine ⟨sortByConfDesc_pairwise _, ?_, ?_, ?_⟩
  · exact (hperm.pairwise_iff (fun {_ _} h => h.symm)).2
      (removeDupsAux_keys (rawDetections text) []).1
  · intro d hd
    exact rawDetections_bounds text d
      (removeDupsAux_subset [] _ d (hperm.mem_iff.1 hd))
  · intro d hd
    rcases removeDupsAux_covers (rawDetections text) [] d hd with hin | ⟨e, he, hkey⟩
    · simp [List.contains] at hin
    · exact ⟨e, hperm.mem_iff.2 he, hkey⟩

/-! ## The bounded-history invariant (C5) -/



theorem updateContext_history (m : ConversationStateManager) (fs : List CtxField)
    (now : Nat) : (m.updateContext fs now).2.stateHistory = m.stateHistory := by
  simp only [ConversationStateManager.updateContext]
  split <;> rfl

theorem capHistory_lastN (L : List StateTransition) (t : StateTransition) :
    ConversationStateManager.capHistory (lastTransitions 10 L ++ [t]) =
      lastTransitions 10 (L ++ [t]) := by
  unfold ConversationStateManager.capHistory lastTransitions maxHistoryLength
  by_cases hn : L.length < 10
  · have h1 : L.length - 10 = 0 := by omega
    rw [h1, List.drop_zero]
    rw [if_neg (by simp only [List.length_append, List.length_cons, List.length_nil]; omega)]
    have h2 : (L ++ [t]).length - 10 = 0 := by
      simp only [List.length_append, List.length_cons, List.length_nil]; omega
    rw [h2, List.drop_zero]
  · push_neg at hn
    have hlen : (L.drop (L.length - 10)).length = 10 := by
      rw [List.length_drop]; omega
    rw [if_pos (by
      simp only [List.length_append, hlen, List.length_cons, List.length_nil]; omega)]
    have hidx : (L.drop (L.length - 10) ++ [t]).length - 10 = 1 := by
      simp only [List.length_append, hlen, List.length_cons, List.length_nil]
    rw [hidx]
    rw [← List.drop_append_of_le_length (by omega)]
    rw [List.drop_drop]
    congr 1
    simp only [List.length_append, List.length_cons, List.length_nil]
    omega





theorem runLog_invariant (ops : List MOp) :
    ∀ (m : ConversationStateManager) (log : List StateTransition),
      m.stateHistory = lastTransitions 10 log →
      (runLog m log ops).1.stateHistory = lastTransitions 10 (runLog m log ops).2 := by
  induction ops with
  | nil => exact fun m log h => h
  | cons op ops ih =>
      intro m log h
      cases op with
      | upState s trig now =>
          rw [runLog]
          by_cases hs : s = m.context.state
          · have heq : m.updateState s trig now = (false, m) := by
              simp [ConversationStateManager.updateState, hs]
            rw [heq]
            exact ih m log h
          · have heq : m.updateState s trig now =
                (true, { m with
                  stateHistory := ConversationStateManager.capHistory
                    (m.stateHistory ++ [⟨m.context.state, s, trig, now⟩]),
                  context := { m.context with
                    previousState := m.context.state,
                    state := s,
                    updatedAt := now } }) := by
              simp [ConversationStateManager.updateState, hs]
            rw [heq]
            simp only [if_true]
            refine ih _ _ ?_
            rw [h, capHistory_lastN]
      | upAct a now =>
          rw [runLog]
          exact ih _ log (by rw [(updateDialogueAct_frame m a now).2.2, h])
      | upCtx fs now =>
          rw [runLog]
          exact ih _ log (by rw [updateContext_history, h])
      | reset genId now =>
          rw [runLog]
          exact ih _ [] rfl

/-- C5: starting from a fresh manager, after any sequence of `update_state`,
`update_dialogue_act`, `update_context` and `reset_conversation` calls the
transition history is exactly the last (at most 10) accepted transitions
since the last reset, in order — FIFO eviction — and so never exceeds 10
entries. -/
theorem state_history_bounded (userId genId : String) (now0 : Nat) (ops : List MOp) :
    ((runLog (ConversationStateManager.new userId genId now0) [] ops).1.stateHistory =
      lastTransitions 10
        (runLog (ConversationStateManager.new userId genId now0) [] ops).2) ∧
    ((runLog (ConversationStateManager.new userId genId now0) [] ops).1.stateHistory.length
      ≤ 10) := by
  have h := runLog_invariant ops (ConversationStateManager.new userId genId now0) [] rfl
  refine ⟨h, ?_⟩
  rw [h]
  unfold lastTransitions
  rw [List.length_drop]
  omega

/-! ## Turn accounting (C10) -/



theorem preBranchManager_turnCount (iface : EnhancedConversationInterface)
    (input : String) (now : Nat) :
    (EnhancedConversationInterface.preBranchManager iface input now).context.turnCount =
      iface.stateManager.context.turnCount + 1 := by
  unfold EnhancedConversationInterface.preBranchManager
  rw [(updateDialogueAct_frame _ _ _).2.1, updateContext_open]

theorem preBranchManager_state (iface : EnhancedConversationInterface)
    (input : String) (now : Nat) :
    (EnhancedConversationInterface.preBranchManager iface input now).context.state =
      iface.stateManager.context.state := by
  unfold EnhancedConversationInterface.preBranchManager
  rw [(updateDialogueAct_frame _ _ _).1, updateContext_open]

theorem preBranchManager_history (iface : EnhancedConversationInterface)
    (input : String) (now : Nat) :
    (EnhancedConversationInterface.preBranchManager iface input now).stateHistory =
      iface.stateManager.stateHistory := by
  unfold EnhancedConversationInterface.preBranchManager
  rw [(updateDialogueAct_frame _ _ _).2.2, updateContext_open]

theorem updateState_history_frame (m : ConversationStateManager)
    (s : ConversationState) (trig : String) (now : Nat) :
    (m.updateState s trig now).2.stateHistory =
      (if s = m.context.state then m.stateHistory
       else ConversationStateManager.capHistory
         (m.stateHistory ++ [⟨m.context.state, s, trig, now⟩])) := by
  simp only [ConversationStateManager.updateState]
  split <;> simp

theorem branchManager_turnCount (iface : EnhancedConversationInterface)
    (input : String) (now : Nat) :
    (EnhancedConversationInterface.branchManager iface input now).context.turnCount =
      iface.stateManager.context.turnCount + 1 := by
  simp only [EnhancedConversationInterface.branchManager]
  split
  · rw [updateState_turnCount, preBranchManager_turnCount]
  · rw [updateConversationState_turnCount, preBranchManager_turnCount]

theorem updateContext_close_turnCount (m : ConversationStateManager) (r : String)
    (now : Nat) :
    (m.updateContext [.lastAgentResponse r] now).2.context.turnCount =
      m.context.turnCount := by
  rw [updateContext_close]

theorem processInput_history (iface : EnhancedConversationInterface) (input : String)
    (llm : Option String) (g : Rng) (now : Nat) :
    (EnhancedConversationInterface.processInput iface input llm g now).2.conversationHistory
        =
      iface.conversationHistory ++
        [("user", input),
         ("assistant",
          (EnhancedConversationInterface.processInput iface input llm g now).1)] := by
  simp only [EnhancedConversationInterface.processInput]

theorem processInput_turnCount (iface : EnhancedConversationInterface) (input : String)
    (llm : Option String) (g : Rng) (now : Nat) :
    (EnhancedConversationInterface.processInput iface input llm g now).2.stateManager.context.turnCount
        =
      iface.stateManager.context.turnCount + 1 := by
  simp only [EnhancedConversationInterface.processInput]
  rw [updateContext_close_turnCount, branchManager_turnCount]

/-- C10: each `process_input` call, on either branch, increments `turn_count`
by exactly one and appends exactly the user entry then the assistant entry
to the private conversation history; hence from any freshly constructed or
reset interface, after `n` calls `turn_count = n` and the history holds
exactly `2 n` entries. -/
theorem process_input_turn_accounting :
    (∀ (iface : EnhancedConversationInterface) (input : String)
        (llm : Option String) (g : Rng) (now : Nat),
      (EnhancedConversationInterface.processInput iface input llm g now).2.conversationHistory
          =
        iface.conversationHistory ++
          [("user", input),
           ("assistant",
            (EnhancedConversationInterface.processInput iface input llm g now).1)] ∧
      (EnhancedConversationInterface.processInput iface input llm g now).2.stateManager.context.turnCount
          =
        iface.stateManager.context.turnCount + 1) ∧
    (∀ (start : EnhancedConversationInterface)
        (calls : List (String × Option String × Rng × Nat)),
      start.stateManager.context.turnCount = 0 →
      start.conversationHistory = [] →
      (processTurns start calls).stateManager.context.turnCount = (calls.length : Int) ∧
      (processTurns start calls).conversationHistory.length = 2 * calls.length) := by
  have hcall : ∀ (iface : EnhancedConversationInterface) (input : String)
      (llm : Option String) (g : Rng) (now : Nat),
      (EnhancedConversationInterface.processInput iface input llm g now).2.conversationHistory
          =
        iface.conversationHistory ++
          [("user", input),
           ("assistant",
            (EnhancedConversationInterface.processInput iface input llm g now).1)] ∧
      (EnhancedConversationInterface.processInput iface input llm g now).2.stateManager.context.turnCount
          =
        iface.stateManager.context.turnCount + 1 := by
    intro iface input llm g now
    exact ⟨processInput_history iface input llm g now,
      processInput_turnCount iface input llm g now⟩
  refine ⟨hcall, ?_⟩
  have hgen : ∀ (calls : List (String × Option String × Rng × Nat))
      (start : EnhancedConversationInterface),
      (processTurns start calls).stateManager.context.turnCount =
        start.stateManager.context.turnCount + calls.length ∧
      (processTurns start calls).conversationHistory.length =
        start.conversationHistory.length + 2 * calls.length := by
    intro calls
    induction calls with
    | nil => intro start; simp [processTurns]
    | cons c cs ih =>
        intro start
        rw [processTurns]
        obtain ⟨ht, hh⟩ := ih (EnhancedConversationInterface.processInput
          start c.1 c.2.1 c.2.2.1 c.2.2.2).2
        obtain ⟨hch, hct⟩ := hcall start c.1 c.2.1 c.2.2.1 c.2.2.2
        constructor
        · rw [ht, hct]
          simp only [List.length_cons]
          push_cast
          ring
        · rw [hh, hch]
          simp only [List.length_append, List.length_cons, List.length_nil]
          omega
  intro start calls h0 hh0
  obtain ⟨ht, hh⟩ := hgen calls start
  rw [ht, hh, h0, hh0]
  simp

/-! ## The ambiguous branch (C1, C2) -/

open EnhancedConversationInterface



theorem gmq_foldl (ctx : Option CtxView) (top : List AmbiguityDetection) :
    ∀ (acc : List String) (g : Rng),
      (top.foldl (fun acc amb =>
        let qg := generateClarificationQuestion amb ctx acc.2
        (acc.1 ++ [qg.1], qg.2)) (acc, g)).1 = acc ++ genQList ctx top g := by
  induction top with
  | nil => intro acc g; simp [genQList]
  | cons a as ih =>
      intro acc g
      rw [List.foldl_cons]
      have hstep : (let qg := generateClarificationQuestion a ctx (acc, g).2
          ((acc, g).1 ++ [qg.1], qg.2)) =
          (acc ++ [(generateClarificationQuestion a ctx g).1],
           (generateClarificationQuestion a ctx g).2) := rfl
      rw [hstep, ih]
      simp [genQList]

theorem clarificationQuestions_eq (iface2 : EnhancedConversationInterface)
    (high : List AmbiguityDetection) (g : Rng) :
    (iface2.clarificationQuestions high g).1 =
      genQList (some iface2.getConversationContext) ((sortByConfDesc high).take 2) g := by
  unfold EnhancedConversationInterface.clarificationQuestions generateMultipleQuestions
  exact gmq_foldl _ _ [] g

theorem updateContext_close_state (m : ConversationStateManager) (r : String)
    (now : Nat) :
    (m.updateContext [.lastAgentResponse r] now).2.context.state = m.context.state := by
  rw [updateContext_close]

theorem updateDialogueAct_sets (m : ConversationStateManager) (a : DialogueAct)
    (now : Nat) : (m.updateDialogueAct a now).2.context.dialogueAct = a := by
  simp only [ConversationStateManager.updateDialogueAct]
  split
  · next h => simpa using h.symm
  · simp

theorem updateState_dialogueAct (m : ConversationStateManager) (s : ConversationState)
    (trig : String) (now : Nat) :
    (m.updateState s trig now).2.context.dialogueAct = m.context.dialogueAct := by
  simp only [ConversationStateManager.updateState]
  split <;> simp

theorem updateConversationState_dialogueAct (m : ConversationStateManager)
    (act : DialogueAct) (now : Nat) :
    (updateConversationState m act now).context.dialogueAct = m.context.dialogueAct := by
  simp only [EnhancedConversationInterface.updateConversationState]
  split_ifs <;> simp [updateState_dialogueAct]

theorem preBranchManager_dialogueAct (iface : EnhancedConversationInterface)
    (input : String) (now : Nat) :
    (preBranchManager iface input now).context.dialogueAct = (recognizeAct input).1 := by
  unfold EnhancedConversationInterface.preBranchManager
  rw [updateDialogueAct_sets]

theorem branchManager_dialogueAct (iface : EnhancedConversationInterface)
    (input : String) (now : Nat) :
    (branchManager iface input now).context.dialogueAct = (recognizeAct input).1 := by
  simp only [EnhancedConversationInterface.branchManager]
  split
  · rw [updateState_dialogueAct, preBranchManager_dialogueAct]
  · rw [updateConversationState_dialogueAct, preBranchManager_dialogueAct]

theorem updateContext_close_dialogueAct (m : ConversationStateManager) (r : String)
    (now : Nat) :
    (m.updateContext [.lastAgentResponse r] now).2.context.dialogueAct =
      m.context.dialogueAct := by
  rw [updateContext_close]

theorem processInput_dialogueAct (iface : EnhancedConversationInterface)
    (input : String) (llm : Option String) (g : Rng) (now : Nat) :
    (EnhancedConversationInterface.processInput iface input llm g now).2.stateManager.context.dialogueAct
      = (recognizeAct input).1 := by
  simp only [EnhancedConversationInterface.processInput]
  rw [updateContext_close_dialogueAct, branchManager_dialogueAct]

theorem clarifyResponse_one (q : String) : clarifyResponse [q] = q := rfl

theorem clarifyResponse_two (q1 q2 : String) :
    clarifyResponse [q1, q2] =
      clarifyHeader ++ ("1. " ++ q1 ++ "\n" ++ ("2. " ++ q2)) := by
  show clarifyHeader ++ joinSep "\n" (numberedLines 0 [q1, q2]) = _
  show clarifyHeader ++ (("1. " ++ q1) ++ "\n" ++ ("2. " ++ q2)) = _
  rfl

/-- C1: whenever the detector reports at least one ambiguity with confidence
at least 0.6, `process_input` answers with the single generated
clarification question verbatim, or with the clarification header followed
by the numbered list of the two generated questions; the state afterwards is
`ASKING_CLARIFICATION`, recorded in the history with trigger
`"ambiguity_detected"` unless the state already was `ASKING_CLARIFICATION`,
in which case no entry is appended (shared lemma behind C1 and C2). -/
theorem processInput_ambiguous_spec (iface : EnhancedConversationInterface)
    (input : String) (llm : Option String) (g : Rng) (now : Nat)
    (hthr : iface.ambiguityThreshold = 6/10)
    (hamb : ∃ d ∈ detectAmbiguities input, (6 : ℚ)/10 ≤ d.confidence) :
    ((∃ q, EnhancedConversationInterface.processQuestions iface input g now = [q] ∧
        (EnhancedConversationInterface.processInput iface input llm g now).1 = q) ∨
     (∃ q1 q2,
        EnhancedConversationInterface.processQuestions iface input g now = [q1, q2] ∧
        (EnhancedConversationInterface.processInput iface input llm g now).1 =
          clarifyHeader ++ ("1. " ++ q1 ++ "\n" ++ ("2. " ++ q2)))) ∧
    (EnhancedConversationInterface.processInput iface input llm g now).2.stateManager.context.state
        = .askingClarification ∧
    (iface.stateManager.context.state = .askingClarification →
      (EnhancedConversationInterface.processInput iface input llm g now).2.stateManager.stateHistory
        = iface.stateManager.stateHistory) ∧
    (iface.stateManager.context.state ≠ .askingClarification →
      (EnhancedConversationInterface.processInput iface input llm g now).2.stateManager.stateHistory
        = ConversationStateManager.capHistory
            (iface.stateManager.stateHistory ++
              [⟨iface.stateManager.context.state, .askingClarification,
                "ambiguity_detected", now⟩])) := by
  have hne : EnhancedConversationInterface.highConfidenceAmbiguities iface input ≠ [] := by
    rcases hamb with ⟨d, hd, hconf⟩
    have hdin : d ∈ (detectAmbiguities input).filter
        (fun amb => iface.ambiguityThreshold ≤ amb.confidence) :=
      List.mem_filter.2 ⟨hd, by rw [hthr]; exact decide_eq_true hconf⟩
    exact List.ne_nil_of_mem hdin
  have hBool :
      (!(EnhancedConversationInterface.highConfidenceAmbiguities iface input).isEmpty)
        = true := by
    cases he : (EnhancedConversationInterface.highConfidenceAmbiguities
        iface input).isEmpty
    · rfl
    · exact absurd (List.isEmpty_iff.1 he) hne
  have hresp0 : (EnhancedConversationInterface.processInput iface input llm g now).1 =
      EnhancedConversationInterface.branchResponse iface input llm g now := by
    simp only [EnhancedConversationInterface.processInput]
  have hresp : (EnhancedConversationInterface.processInput iface input llm g now).1 =
      clarifyResponse (EnhancedConversationInterface.processQuestions iface input g now) := by
    rw [hresp0]
    simp only [EnhancedConversationInterface.branchResponse]
    rw [if_pos hBool]
  have hbm : EnhancedConversationInterface.branchManager iface input now =
      ((EnhancedConversationInterface.preBranchManager iface input now).updateState
        .askingClarification "ambiguity_detected" now).2 := by
    simp only [EnhancedConversationInterface.branchManager]
    rw [if_pos hBool]
  have hsm : (EnhancedConversationInterface.processInput iface input llm g now).2.stateManager
      = ((EnhancedConversationInterface.branchManager iface input now).updateContext
          [.lastAgentResponse
            (EnhancedConversationInterface.processInput iface input llm g now).1] now).2 := by
    simp only [EnhancedConversationInterface.processInput]
  refine ⟨?_, ?_, ?_, ?_⟩
  · rw [hresp]
    have hq : EnhancedConversationInterface.processQuestions iface input g now =
        genQList (some (EnhancedConversationInterface.getConversationContext
          { iface with stateManager :=
              EnhancedConversationInterface.preBranchManager iface input now }))
          ((sortByConfDesc
            (EnhancedConversationInterface.highConfidenceAmbiguities iface input)).take 2)
          g :=
      clarificationQuestions_eq _ _ g
    have hsne : sortByConfDesc
        (EnhancedConversationInterface.highConfidenceAmbiguities iface input) ≠ [] := by
      intro hnil
      exact hne (List.Perm.eq_nil (hnil ▸ (sortByConfDesc_perm _).symm))
    rw [hq]
    rcases hs : sortByConfDesc
        (EnhancedConversationInterface.highConfidenceAmbiguities iface input) with
      _ | ⟨a, _ | ⟨b, rest⟩⟩
    · exact absurd hs hsne
    · simp only [List.take_succ_cons, List.take_nil, genQList]
      exact Or.inl ⟨_, rfl, rfl⟩
    · simp only [List.take_succ_cons, List.take_zero, genQList]
      exact Or.inr ⟨_, _, rfl, clarifyResponse_two _ _⟩
  · rw [hsm, updateContext_close_state, hbm, updateState_state]
  · intro hst
    rw [hsm, updateContext_history, hbm, updateState_history_frame,
      if_pos (by rw [preBranchManager_state, hst]), preBranchManager_history]
  · intro hst
    rw [hsm, updateContext_history, hbm, updateState_history_frame,
      if_neg (by rw [preBranchManager_state]; exact fun h => hst h.symm),
      preBranchManager_history, preBranchManager_state]

/-- C1: whenever the detector reports at least one ambiguity with confidence
at least 0.6, `process_input` answers with the single generated
clarification question verbatim, or with the clarification header followed
by the numbered list of the two generated questions; the state afterwards is
`ASKING_CLARIFICATION`, recorded in the history with trigger
`"ambiguity_detected"` unless the state already was `ASKING_CLARIFICATION`,
in which case no entry is appended. -/
theorem process_input_ambiguous_branch (iface : EnhancedConversationInterface)
    (input : String) (llm : Option String) (g : Rng) (now : Nat)
    (hthr : iface.ambiguityThreshold = 6/10)
    (hamb : ∃ d ∈ detectAmbiguities input, (6 : ℚ)/10 ≤ d.confidence) :
    ((∃ q, EnhancedConversationInterface.processQuestions iface input g now = [q] ∧
        (EnhancedConversationInterface.processInput iface input llm g now).1 = q) ∨
     (∃ q1 q2,
        EnhancedConversationInterface.processQuestions iface input g now = [q1, q2] ∧
        (EnhancedConversationInterface.processInput iface input llm g now).1 =
          clarifyHeader ++ ("1. " ++ q1 ++ "\n" ++ ("2. " ++ q2)))) ∧
    (EnhancedConversationInterface.processInput iface input llm g now).2.stateManager.context.state
        = .askingClarification ∧
    (iface.stateManager.context.state = .askingClarification →
      (EnhancedConversationInterface.processInput iface input llm g now).2.stateManager.stateHistory
        = iface.stateManager.stateHistory) ∧
    (iface.stateManager.context.state ≠ .askingClarification →
      (EnhancedConversationInterface.processInput iface input llm g now).2.stateManager.stateHistory
        = ConversationStateManager.capHistory
            (iface.stateManager.stateHistory ++
              [⟨iface.stateManager.context.state, .askingClarification,
                "ambiguity_detected", now⟩])) :=
  processInput_ambiguous_spec iface input llm g now hthr hamb

/-- C1 witness: on a fresh interface, the input "What about it?" carries a
detection with confidence at least 0.6, and `process_input` ends in the
`ASKING_CLARIFICATION` state with the transition recorded. -/
theorem process_input_ambiguous_branch_witness :
    (EnhancedConversationInterface.processInput
      (EnhancedConversationInterface.new "u" "c" 0) "What about it?" none
      ⟨fun _ => 0, 0⟩ 1).2.stateManager.context.state = .askingClarification ∧
    (EnhancedConversationInterface.processInput
      (EnhancedConversationInterface.new "u" "c" 0) "What about it?" none
      ⟨fun _ => 0, 0⟩ 1).2.stateManager.stateHistory =
      ConversationStateManager.capHistory
        ((EnhancedConversationInterface.new "u" "c" 0).stateManager.stateHistory ++
          [⟨(EnhancedConversationInterface.new "u" "c" 0).stateManager.context.state,
            .askingClarification, "ambiguity_detected", 1⟩]) :=
  ⟨(process_input_ambiguous_branch (EnhancedConversationInterface.new "u" "c" 0)
      "What about it?" none ⟨fun _ => 0, 0⟩ 1 rfl
      (by with_unfolding_all decide)).2.1,
   (process_input_ambiguous_branch (EnhancedConversationInterface.new "u" "c" 0)
      "What about it?" none ⟨fun _ => 0, 0⟩ 1 rfl
      (by with_unfolding_all decide)).2.2.2 (by decide)⟩



/-- C2 counterexample: on `"Please help me with this task"` the detector
reports an ENTITY ambiguity at confidence 0.7 ≥ 0.6 (the word "this"), so
`process_input` on a fresh conversation takes the clarification branch and
ends in `ASKING_CLARIFICATION`, not `PROVIDING_INFORMATION`. -/
theorem scenario3_counterexample :
    detectAmbiguities "Please help me with this task" = [scenario3Detection] ∧
    ((6 : ℚ)/10 ≤ scenario3Detection.confidence) ∧
    (EnhancedConversationInterface.processInput
      (EnhancedConversationInterface.new "user" "conv" 0)
      "Please help me with this task" none ⟨fun _ => 0, 0⟩ 1).2.stateManager.context.state
      = .askingClarification ∧
    ConversationState.askingClarification ≠ .providingInformation := by
  with_unfolding_all decide

/-- C2 amended: on a fresh conversation, `"Please help me with this task"`
recognizes dialogue act REQUEST (confidence 0.7), but the detector finds an
ENTITY ambiguity ("this", offsets 20–24) at confidence 0.7 ≥ 0.6, so
`process_input` returns the single generated clarification question and the
state becomes `ASKING_CLARIFICATION` rather than `PROVIDING_INFORMATION`. -/
theorem scenario3_amended (uid gid : String) (now0 now : Nat) (g : Rng) :
    recognizeAct "Please help me with this task" = (.request, 7/10) ∧
    detectAmbiguities "Please help me with this task" = [scenario3Detection] ∧
    (∃ q, EnhancedConversationInterface.processQuestions
        (EnhancedConversationInterface.new uid gid now0)
        "Please help me with this task" g now = [q] ∧
      (EnhancedConversationInterface.processInput
        (EnhancedConversationInterface.new uid gid now0)
        "Please help me with this task" none g now).1 = q) ∧
    (EnhancedConversationInterface.processInput
      (EnhancedConversationInterface.new uid gid now0)
      "Please help me with this task" none g now).2.stateManager.context.state
      = .askingClarification ∧
    (EnhancedConversationInterface.processInput
      (EnhancedConversationInterface.new uid gid now0)
      "Please help me with this task" none g now).2.stateManager.context.dialogueAct
      = .request := by
  have hdet : detectAmbiguities "Please help me with this task" = [scenario3Detection] := by
    with_unfolding_all decide
  have hrec : recognizeAct "Please help me with this task" = (.request, 7/10) := by
    with_unfolding_all decide
  have hamb : ∃ d ∈ detectAmbiguities "Please help me with this task",
      (6 : ℚ)/10 ≤ d.confidence :=
    ⟨scenario3Detection, by rw [hdet]; exact List.mem_singleton.2 rfl,
      by norm_num [scenario3Detection]⟩
  have hmain := processInput_ambiguous_spec
    (EnhancedConversationInterface.new uid gid now0)
    "Please help me with this task" none g now rfl hamb
  have hhigh : EnhancedConversationInterface.highConfidenceAmbiguities
      (EnhancedConversationInterface.new uid gid now0) "Please help me with this task"
      = [scenario3Detection] := by
    simp only [EnhancedConversationInterface.highConfidenceAmbiguities, hdet,
      EnhancedConversationInterface.new, List.filter_cons, List.filter_nil]
    rw [if_pos (decide_eq_true (by norm_num [scenario3Detection] : (6 : ℚ)/10 ≤
      scenario3Detection.confidence))]
  have hpq : EnhancedConversationInterface.processQuestions
      (EnhancedConversationInterface.new uid gid now0)
      "Please help me with this task" g now =
      [(generateClarificationQuestion scenario3Detection
        (some (EnhancedConversationInterface.getConversationContext
          { EnhancedConversationInterface.new uid gid now0 with
            stateManager := EnhancedConversationInterface.preBranchManager
              (EnhancedConversationInterface.new uid gid now0)
              "Please help me with this task" now })) g).1] := by
    have hq := clarificationQuestions_eq
      { EnhancedConversationInterface.new uid gid now0 with
        stateManager := EnhancedConversationInterface.preBranchManager
          (EnhancedConversationInterface.new uid gid now0)
          "Please help me with this task" now }
      (EnhancedConversationInterface.highConfidenceAmbiguities
        (EnhancedConversationInterface.new uid gid now0)
        "Please help me with this task") g
    refine Eq.trans hq ?_
    rw [hhigh]
    rfl
  refine ⟨hrec, hdet, ?_, hmain.2.1, ?_⟩
  · rcases hmain.1 with ⟨q, hq1, hq2⟩ | ⟨q1, q2, hq1, _⟩
    · exact ⟨q, hq1, hq2⟩
    · rw [hpq] at hq1
      cases hq1
  · rw [processInput_dialogueAct, hrec]

end PersonalAgent
